import Mathlib

/-!
Verification development for the lambda-razberry repository: serverless
handlers translating smart-home directive envelopes into HTTP calls against
a device backend, and HTTP results back into event envelopes.

The repository holds several revisions of the same handler:
* src/index.js            - versioned (payloadVersion "3") envelope shape;
* src/code.js             - three revisions concatenated: two legacy
                            (payloadVersion "2") handlers and one versioned
                            revision (called CodeJsV3 below);
* src/unnamed/part_000    - the latest versioned revision (Part000 below);
* src/unnamed/part_001    - a legacy promise-based revision plus another
                            versioned revision.

Each JS function is embedded as a Lean function of the same name, placed in
a namespace naming its revision.  The ambient clock (Date.now()) is passed
as an explicit natural-number argument; the HTTP transport is an explicit
argument describing the outcome of the single outbound call.
-/

namespace Razberry

/-! ### Decimal rendering of JS numbers

Embeds the template interpolation of a JS number (for example the string
interpolation of Date.now() into messageId, and of response.statusCode
into error messages): the usual base-10 rendering. -/

def decDigitChar (d : Nat) : Char := Char.ofNat (48 + d)

/-- Digit-list construction, fuelled so it unfolds by plain structural
recursion; the fuel n + 1 always suffices since n / 10 < n. -/
def decDigitsAux : Nat → Nat → List Char
  | 0, _ => []
  | fuel + 1, n =>
    if n < 10 then [decDigitChar n]
    else decDigitsAux fuel (n / 10) ++ [decDigitChar (n % 10)]

def decDigits (n : Nat) : List Char := decDigitsAux (n + 1) n

def jsNumberToString (n : Nat) : String := String.mk (decDigits n)

/-- Rendering of a JS integer that may be negative. -/
def jsIntToString (n : Int) : String :=
  if n < 0 then "-" ++ jsNumberToString n.natAbs else jsNumberToString n.natAbs

/-- Reading a decimal digit string back; used only to prove the rendering
injective. -/
def decValue (cs : List Char) : Nat :=
  List.foldl (fun a c => 10 * a + (c.toNat - 48)) 0 cs

theorem decDigitsAux_ne_nil (fuel n : Nat) (h : n < fuel) : decDigitsAux fuel n ≠ [] := by
  cases fuel with
  | zero => omega
  | succ f =>
    rw [decDigitsAux]
    split
    · simp
    · simp

theorem decDigits_ne_nil (n : Nat) : decDigits n ≠ [] :=
  decDigitsAux_ne_nil (n + 1) n (Nat.lt_succ_self n)

theorem decValue_append_digit (l : List Char) (c : Char) :
    decValue (l ++ [c]) = 10 * decValue l + (c.toNat - 48) := by
  unfold decValue
  rw [List.foldl_append]
  rfl

theorem toNat_decDigitChar (d : Nat) (h : d < 10) :
    (decDigitChar d).toNat = 48 + d := by
  interval_cases d <;> decide

theorem decValue_decDigitsAux (fuel : Nat) :
    ∀ n, n < fuel → decValue (decDigitsAux fuel n) = n := by
  induction fuel with
  | zero => omega
  | succ f ih =>
    intro n hn
    rw [decDigitsAux]
    split
    · rename_i h
      show decValue [decDigitChar n] = n
      unfold decValue
      simp [toNat_decDigitChar n h]
    · rename_i h
      rw [decValue_append_digit]
      have hdiv : n / 10 < n := Nat.div_lt_self (by omega) (by decide)
      have hrec := ih (n / 10) (by omega)
      rw [hrec, toNat_decDigitChar (n % 10) (Nat.mod_lt _ (by decide))]
      omega

theorem decValue_decDigits (n : Nat) : decValue (decDigits n) = n :=
  decValue_decDigitsAux (n + 1) n (Nat.lt_succ_self n)

theorem jsNumberToString_injective {m n : Nat}
    (h : jsNumberToString m = jsNumberToString n) : m = n := by
  unfold jsNumberToString at h
  have hl : decDigits m = decDigits n := congrArg String.data h
  have := congrArg decValue hl
  rwa [decValue_decDigits, decValue_decDigits] at this

theorem jsNumberToString_ne_empty (n : Nat) : jsNumberToString n ≠ "" := by
  unfold jsNumberToString
  intro h
  exact decDigits_ne_nil n (congrArg String.data h)

/-! ### JSON value model

Models the JS values that cross the transport boundary: the result of
JSON.parse, the argument of JSON.stringify.  Numbers are modelled as
integers (every number these handlers exchange is an integral count or
channel number).  Object fields are kept in insertion order; JSON.parse
keeps the first position and the last value of a duplicated key, which the
parser below reproduces, so field lists are duplicate-free. -/

inductive Json where
  | null
  | bool (b : Bool)
  | num (n : Int)
  | str (s : String)
  | arr (elems : List Json)
  | obj (fields : List (String × Json))

/-- Member access j.k in JS: some value when the key is present, none
standing for undefined.  Arrays and primitives have no named members that
these handlers ever read. -/
def jget : Json → String → Option Json
  | .obj fields, k => lookupField fields k
  | _, _ => none
where lookupField : List (String × Json) → String → Option Json
  | [], _ => none
  | (k', v) :: rest, k => if k' = k then some v else lookupField rest k

/-- JS truthiness of a value. -/
def jTruthy : Json → Bool
  | .null => false
  | .bool b => b
  | .num n => !(n == 0)
  | .str s => !(s == "")
  | .arr _ => true
  | .obj _ => true

/-- JS truthiness of a possibly-undefined value. -/
def jTruthyOpt : Option Json → Bool
  | none => false
  | some j => jTruthy j

/-- Strict equality j === "s" of a possibly-undefined value against a
string literal. -/
def jsStrictEqStr : Option Json → String → Bool
  | some (.str t), s => t == s
  | _, _ => false

/-- Comma join for the array ToString coercion. -/
def joinElems : List String → String
  | [] => ""
  | [s] => s
  | s :: rest => s ++ "," ++ joinElems rest

/- JS ToString coercion (used by hasOwnProperty key coercion): arrays
join their elements with commas, null renders as the empty string inside
an array, plain objects render as "[object Object]". -/
mutual

def jsToString : Json → String
  | .null => "null"
  | .bool true => "true"
  | .bool false => "false"
  | .num n => jsIntToString n
  | .str s => s
  | .arr xs => joinElems (jsToStringElems xs)
  | .obj _ => "[object Object]"

def jsToStringElems : List Json → List String
  | [] => []
  | .null :: rest => "" :: jsToStringElems rest
  | j :: rest => jsToString j :: jsToStringElems rest

end

/-! ### JSON.stringify

Renders a Json value back to text.  String escaping covers the quote and
the backslash (none of the strings this service builds contain control
characters). -/

def escapeChar (c : Char) : String :=
  if c = '"' then "\\\"" else if c = '\\' then "\\\\" else String.mk [c]

def escapeString (s : String) : String :=
  String.join (s.data.map escapeChar)

def renderString (s : String) : String := "\"" ++ escapeString s ++ "\""

def commaJoin : List String → String
  | [] => ""
  | [s] => s
  | s :: rest => s ++ "," ++ commaJoin rest

mutual

def renderJson : Json → String
  | .null => "null"
  | .bool true => "true"
  | .bool false => "false"
  | .num n => jsIntToString n
  | .str s => renderString s
  | .arr xs => "[" ++ commaJoin (renderJsonList xs) ++ "]"
  | .obj fields => "\x7b" ++ commaJoin (renderFields fields) ++ "\x7d"

def renderJsonList : List Json → List String
  | [] => []
  | j :: rest => renderJson j :: renderJsonList rest

def renderFields : List (String × Json) → List String
  | [] => []
  | (k, v) :: rest => (renderString k ++ ":" ++ renderJson v) :: renderFields rest

end

/-! ### JSON.parse

A recursive-descent reader of JSON text, fuelled by the input length.
It accepts the JSON core used by this service: literals, integral numbers,
strings with quote/backslash escapes, arrays and objects.  A failing parse
models the SyntaxError that JSON.parse throws. -/

def isJsonWs (c : Char) : Bool :=
  c = ' ' || c = '\n' || c = '\t' || c = '\r'

def skipWs (cs : List Char) : List Char := cs.dropWhile isJsonWs

def parseStringBody : List Char → Option (String × List Char)
  | [] => none
  | c :: rest =>
    if c = '"' then some ("", rest)
    else if c = '\\' then
      match rest with
      | [] => none
      | e :: rest' =>
        if e = '"' || e = '\\' || e = '/' then
          (parseStringBody rest').map (fun (s, r) => (String.mk [e] ++ s, r))
        else if e = 'n' then
          (parseStringBody rest').map (fun (s, r) => ("\n" ++ s, r))
        else if e = 't' then
          (parseStringBody rest').map (fun (s, r) => ("\t" ++ s, r))
        else none
    else (parseStringBody rest).map (fun (s, r) => (String.mk [c] ++ s, r))

def parseDigits : List Char → Option (Nat × List Char)
  | cs =>
    let digits := cs.takeWhile (fun c => '0' ≤ c && c ≤ '9')
    if digits.isEmpty then none
    else some (decValue digits, cs.drop digits.length)

/-- Updates a reversed accumulator of members: a repeated key overwrites
the stored value in place. -/
def upsertRev (acc : List (String × Json)) (k : String) (v : Json) : List (String × Json) :=
  if acc.any (fun kv => kv.1 = k) then
    acc.map (fun kv => if kv.1 = k then (k, v) else kv)
  else (k, v) :: acc

mutual

def parseValue : Nat → List Char → Option (Json × List Char)
  | 0, _ => none
  | fuel + 1, cs =>
    match skipWs cs with
    | [] => none
    | c :: rest =>
      if c = '"' then (parseStringBody rest).map (fun (s, r) => (Json.str s, r))
      else if c = 'n' then
        match rest with
        | 'u' :: 'l' :: 'l' :: r => some (Json.null, r)
        | _ => none
      else if c = 't' then
        match rest with
        | 'r' :: 'u' :: 'e' :: r => some (Json.bool true, r)
        | _ => none
      else if c = 'f' then
        match rest with
        | 'a' :: 'l' :: 's' :: 'e' :: r => some (Json.bool false, r)
        | _ => none
      else if c = '-' then
        (parseDigits rest).map (fun (n, r) => (Json.num (-(n : Int)), r))
      else if '0' ≤ c && c ≤ '9' then
        (parseDigits (c :: rest)).map (fun (n, r) => (Json.num (n : Int), r))
      else if c = '[' then
        match skipWs rest with
        | ']' :: r => some (Json.arr [], r)
        | _ => parseElems fuel [] rest
      else if c = '\x7b' then
        match skipWs rest with
        | '\x7d' :: r => some (Json.obj [], r)
        | _ => parseMembers fuel [] rest
      else none

/-- Parses the remaining elements of a non-empty array, accumulating in
reverse. -/
def parseElems : Nat → List Json → List Char → Option (Json × List Char)
  | 0, _, _ => none
  | fuel + 1, acc, cs =>
    match parseValue fuel cs with
    | none => none
    | some (v, rest) =>
      match skipWs rest with
      | ',' :: r => parseElems fuel (v :: acc) r
      | ']' :: r => some (Json.arr (v :: acc).reverse, r)
      | _ => none

/-- Parses the remaining members of a non-empty object, accumulating in
reverse; a duplicated key keeps its first position and last value, as
JSON.parse does. -/
def parseMembers : Nat → List (String × Json) → List Char → Option (Json × List Char)
  | 0, _, _ => none
  | fuel + 1, acc, cs =>
    match skipWs cs with
    | '"' :: rest =>
      match parseStringBody rest with
      | none => none
      | some (k, afterKey) =>
        match skipWs afterKey with
        | ':' :: afterColon =>
          match parseValue fuel afterColon with
          | none => none
          | some (v, rest') =>
            let acc' := upsertRev acc k v
            match skipWs rest' with
            | ',' :: r => parseMembers fuel acc' r
            | '\x7d' :: r => some (Json.obj acc'.reverse, r)
            | _ => none
        | _ => none
    | _ => none

end

def jsonParse (s : String) : Option Json :=
  match parseValue (s.length + 1) s.data with
  | some (j, rest) => if (skipWs rest).isEmpty then some j else none
  | none => none

/-! ### JS errors and their serialization

A JS Error has a message and possibly further enumerable own properties
(Node system errors add code, errno, syscall, ...).  The message, stack
and name properties of an Error are not enumerable, so JSON.stringify of
an Error serializes only the extra enumerable properties - for a plain
Error the result is "\x7b\x7d". -/

structure JsError where
  message : String
  enumerableProps : List (String × Json)

def jsonStringifyError (e : JsError) : String :=
  renderJson (Json.obj e.enumerableProps)

/-- The SyntaxError JSON.parse throws; it carries no enumerable own
properties, so only its (empty) serialization can reach an envelope. -/
def jsonParseSyntaxError : JsError :=
  { message := "Unexpected token in JSON", enumerableProps := [] }

/-- The TypeError thrown where a handler calls the nonexistent method
context.success; again only its empty serialization is observable. -/
def contextSuccessTypeError : JsError :=
  { message := "context.success is not a function", enumerableProps := [] }

/-- Whether the first list starts the second. -/
def listPrefixEq : List Char → List Char → Bool
  | [], _ => true
  | _ :: _, [] => false
  | a :: as, b :: bs => a == b && listPrefixEq as bs

def containsSubAux (needle : List Char) : List Char → Bool
  | [] => listPrefixEq needle []
  | h :: hs => listPrefixEq needle (h :: hs) || containsSubAux needle hs

/-- Plain substring test, used to state what an error message does not
contain. -/
def containsSubstr (hay needle : String) : Bool :=
  containsSubAux needle.data hay.data

/-! ### Transport model

The transport layer below the shims: the single outbound request either
fails at the socket or completes with a status code, headers and an
accumulated body. -/

structure HttpResponse where
  statusCode : Nat
  headers : List (String × String)
  responseText : String

inductive SocketResult where
  | err (e : JsError)
  | resp (r : HttpResponse)

/-- The promise wrapper of src/index.js (the identical function appears in
both revisions of src/unnamed/part_001): resolves with statusCode, headers
and responseText for every completed response, whatever the status, and
rejects only on a socket error. -/
def httpPromise (s : SocketResult) : Except JsError HttpResponse :=
  match s with
  | .err e => .error e
  | .resp r =>
    .ok { statusCode := r.statusCode, headers := r.headers, responseText := r.responseText }

/-- How a JS promise can be observed by the continuation attached to it. -/
inductive PromiseOutcome (α : Type) where
  | resolved (a : α)
  | rejected (e : JsError)
  | stuck

/-- The outbound request a handler issues.  The configured host/port are
ambient environment (outside the mapping core), so a request is its
method, path, body and headers. -/
structure HttpRequest where
  method : String
  path : String
  body : Option String
  headers : List (String × String)

/-! ### Outbound envelope shapes -/

structure RespHeader where
  messageId : String
  name : String
  nspace : String
  payloadVersion : String

structure Capability where
  iface : String
  type : String
  version : String

/-- An entry of a versioned discovery reply.  Field values other than the
capability list come straight out of the parsed backend response, so they
are Json values (none models a JS undefined member, dropped when the
envelope is serialized). -/
structure AlexaEndpoint where
  endpointId : Option Json
  manufacturerName : Option Json
  friendlyName : Option Json
  description : Option Json
  displayCategories : List Json
  capabilities : List Capability

inductive ResponsePayload where
  | emptyObj
  | errorInfo (type message : String)
  | discovery (endpoints : List AlexaEndpoint)

structure ContextProperty where
  nspace : String
  name : String
  value : Option Json
  timeOfSample : Option Json
  uncertaintyInMilliseconds : Option Json

structure EventBlock where
  header : RespHeader
  payload : ResponsePayload

/-- Versioned outbound envelope: an event block, plus the reported-state
context that Object.assign merges onto control replies. -/
structure ResponseV3 where
  event : EventBlock
  context : Option (List ContextProperty)

/-- Legacy outbound envelope (payloadVersion "2"): flat header and
payload. -/
structure LegacyResponse where
  header : RespHeader
  payload : Json

/-! ### Inbound directive envelope (versioned shape)

Option models an absent member.  Reading a member of an absent object
throws in JS; the handlers below return a crashed result there. -/

structure Scope where
  token : Option String

structure DirectiveHeader where
  nspace : Option String
  name : Option String

structure DirectiveEndpoint where
  endpointId : Option String
  scope : Option Scope

structure DirectivePayload where
  scope : Option Scope
  channel : Option Json
  channelMetadata : Option Json
  channelCount : Option Json
  input : Option Json
  mute : Option Json
  volumeSteps : Option Json

structure Directive where
  header : Option DirectiveHeader
  payload : Option DirectivePayload
  endpoint : Option DirectiveEndpoint

structure Event where
  directive : Option Directive

/-- A payload carrying nothing, for building events in statements. -/
def emptyDirectivePayload : DirectivePayload :=
  { scope := none, channel := none, channelMetadata := none, channelCount := none,
    input := none, mute := none, volumeSteps := none }

/-- Interpolation of a possibly-undefined string into a template
literal. -/
def jsUndefStr : Option String → String
  | none => "undefined"
  | some s => s

/-- Models the anchored regex test of the power handlers: the pattern
matches exactly the strings TurnOn and TurnOff.  An undefined name is
coerced to the text "undefined", which does not match. -/
def testTurnOnOff : Option String → Bool
  | some s => s == "TurnOn" || s == "TurnOff"
  | none => false

/-! ### Handler results

Every invocation performs at most one transport call.  A handler either
answers immediately (no transport call), or issues one request and maps
the transport outcome to an answer through its continuation, or throws
synchronously before reaching the transport (crashed). -/

inductive Outcome where
  | succeed (r : ResponseV3)
  | fail (r : ResponseV3)
  | crash
  | hang

inductive HandlerResult (τ : Type) where
  | immediate (o : Outcome)
  | withCall (req : HttpRequest) (k : τ → Outcome)
  | crashed

def HandlerResult.request? : HandlerResult τ → Option HttpRequest
  | .withCall req _ => some req
  | _ => none

/-- Feeds a transport outcome to the continuation of a result that issued
a call. -/
def HandlerResult.resume : HandlerResult τ → τ → Option Outcome
  | .withCall _ k, t => some (k t)
  | _, _ => none

/-! ### Shared constants

The ERROR_TYPES and SUPPORTED_INTERFACES objects are identical in
src/index.js, the versioned revision of src/code.js and
src/unnamed/part_000 (part_001's versioned revision spells the ERROR_TYPES
keys in upper case but binds the same values). -/

def ERROR_TYPES.endpointUnreachable : String := "ENDPOINT_UNREACHABLE"
def ERROR_TYPES.noSuchEndpoint : String := "NO_SUCH_ENDPOINT"
def ERROR_TYPES.invalidValue : String := "INVALID_VALUE"
def ERROR_TYPES.valueOutOfRange : String := "VALUE_OUT_OF_RANGE"
def ERROR_TYPES.temperatureValueOutOfRange : String := "TEMPERATURE_VALUE_OUT_OF_RANGE"
def ERROR_TYPES.invalidDirective : String := "INVALID_DIRECTIVE"
def ERROR_TYPES.firmwareOutOfRange : String := "FIRMWARE_OUT_OF_RANGE"
def ERROR_TYPES.hardwareMalfunction : String := "HARDWARE_MALFUNCTION"
def ERROR_TYPES.rateLimitExceeded : String := "RATE_LIMIT_EXCEEDED"
def ERROR_TYPES.invalidAuthorizationCredential : String := "INVALID_AUTHORIZATION_CREDENTIAL"
def ERROR_TYPES.expiredAuthorizationCredential : String := "EXPIRED_AUTHORIZATION_CREDENTIAL"
def ERROR_TYPES.internalError : String := "INTERNAL_ERROR"

def SUPPORTED_INTERFACES.Alexa_Discovery : String := "Alexa.Discovery"
def SUPPORTED_INTERFACES.Alexa_PowerController : String := "Alexa.PowerController"
def SUPPORTED_INTERFACES.Alexa_ChannelController : String := "Alexa.ChannelController"
def SUPPORTED_INTERFACES.Alexa_PlaybackController : String := "Alexa.PlaybackController"
def SUPPORTED_INTERFACES.Alexa_InputController : String := "Alexa.InputController"
def SUPPORTED_INTERFACES.Alexa_StepSpeaker : String := "Alexa.StepSpeaker"

/-- Validity check shared verbatim by all versioned revisions: the event,
its directive, the directive header and a truthy namespace and name must
all be present. -/
def isEventValid (event : Option Event) : Bool :=
  match event with
  | none => false
  | some e =>
    match e.directive with
    | none => false
    | some d =>
      match d.header with
      | none => false
      | some h =>
        (match h.nspace with
         | none => false
         | some s => !(s == "")) &&
        (match h.name with
         | none => false
         | some s => !(s == ""))

/-! ### JSON.stringify of the inbound event (log messages only)

Members are rendered in the inbound protocol order; an absent member is
omitted, an absent event renders as the text "undefined". -/

def optField (k : String) (v : Option Json) : List (String × Json) :=
  match v with
  | some j => [(k, j)]
  | none => []

def Scope.toJson (s : Scope) : Json :=
  Json.obj (optField "token" (s.token.map Json.str))

def DirectiveHeader.toJson (h : DirectiveHeader) : Json :=
  Json.obj (optField "namespace" (h.nspace.map Json.str) ++ optField "name" (h.name.map Json.str))

def DirectiveEndpoint.toJson (e : DirectiveEndpoint) : Json :=
  Json.obj (optField "endpointId" (e.endpointId.map Json.str) ++
    optField "scope" (e.scope.map Scope.toJson))

def DirectivePayload.toJson (p : DirectivePayload) : Json :=
  Json.obj (optField "scope" (p.scope.map Scope.toJson) ++
    optField "channel" p.channel ++
    optField "channelMetadata" p.channelMetadata ++
    optField "channelCount" p.channelCount ++
    optField "input" p.input ++
    optField "mute" p.mute ++
    optField "volumeSteps" p.volumeSteps)

def Directive.toJson (d : Directive) : Json :=
  Json.obj (optField "header" (d.header.map DirectiveHeader.toJson) ++
    optField "payload" (d.payload.map DirectivePayload.toJson) ++
    optField "endpoint" (d.endpoint.map DirectiveEndpoint.toJson))

def Event.toJson (e : Event) : Json :=
  Json.obj (optField "directive" (e.directive.map Directive.toJson))

def jsStringifyEvent : Option Event → String
  | none => "undefined"
  | some e => renderJson e.toJson

/-! ### Object.assign and stringification of request bodies

A request body is built as an object literal, possibly merged with further
objects by Object.assign, then passed through JSON.stringify.  A member
holding undefined exists on the object but is dropped by JSON.stringify,
so bodies are built as fields with optional values. -/

/-- The enumerable own properties a for-in loop visits: the fields of an
object, the indexed characters of a string, the indexed elements of an
array; primitives have none. -/
def enumProps : Json → List (String × Json)
  | .obj fs => fs
  | .str s => s.data.enum.map (fun ic => (jsNumberToString ic.1, Json.str (String.mk [ic.2])))
  | .arr xs => xs.enum.map (fun ix => (jsNumberToString ix.1, ix.2))
  | _ => []

def upsertFieldU (fs : List (String × Option Json)) (k : String) (v : Json) :
    List (String × Option Json) :=
  if fs.any (fun kv => kv.1 = k) then
    fs.map (fun kv => if kv.1 = k then (k, some v) else kv)
  else fs ++ [(k, some v)]

/-- Object.assign(target, source) for the body-building merges: copies the
enumerable own properties of the source onto the target; an undefined
source contributes nothing. -/
def jsAssignIntoU (target : List (String × Option Json)) (source : Option Json) :
    List (String × Option Json) :=
  let props : List (String × Json) :=
    match source with
    | none => []
    | some j => enumProps j
  props.foldl (fun fs kv => upsertFieldU fs kv.1 kv.2) target

/-- JSON.stringify of an object some of whose members hold undefined:
those members are dropped. -/
def stringifyObjWithUndef (fs : List (String × Option Json)) : String :=
  renderJson (Json.obj (fs.filterMap (fun kv => kv.2.map (fun v => (kv.1, v)))))

/-! ## src/index.js -/

namespace IndexJs

/-- The HTTP headers getOptions attaches to an outbound request (hostname
and port come from ambient configuration, outside the mapping core). -/
def getOptions (postData : Option String) : List (String × String) :=
  [("accept", "*/*"),
    ("Content-Type", "application/json"),
    ("Content-Length",
      match postData with
      | some s => jsNumberToString s.utf8ByteSize
      | none => jsNumberToString 0)]

def getResponse (nspace name : String) (payload : Option ResponsePayload) (now : Nat) :
    ResponseV3 :=
  { event :=
      { header :=
          { messageId := jsNumberToString now,
            name := name,
            nspace := nspace,
            payloadVersion := "3" },
        payload := payload.getD .emptyObj },
    context := none }

def getErrorResponse (type message : String) (now : Nat) : ResponseV3 :=
  getResponse "Alexa" "ErrorResponse" (some (.errorInfo type message)) now

/-- hasOwnProperty on the SUPPORTED_ENDPOINT_TYPES object, whose keys are
switchBinary, roku and television; the looked-up value is coerced to a
property key string. -/
def supportedTypesHasOwn (t : Option Json) : Bool :=
  let key :=
    match t with
    | none => "undefined"
    | some j => jsToString j
  key == "switchBinary" || key == "roku" || key == "television"

def isEndpointSupported (endpoint : Json) : Bool :=
  jTruthy endpoint &&
  jTruthyOpt (jget endpoint "id") &&
  jTruthyOpt (jget endpoint "name") &&
  jTruthyOpt (jget endpoint "description") &&
  jTruthyOpt (jget endpoint "manufacturer") &&
  supportedTypesHasOwn (jget endpoint "type")

def getCapability (iface : String) : Capability :=
  { iface := iface, type := "AlexaInterface", version := "1.0" }

def getEndpointCapabilities (endpoint : Json) : List Capability :=
  let type := jget endpoint "type"
  (if jsStrictEqStr type "switchBinary" || jsStrictEqStr type "television" then
    [getCapability SUPPORTED_INTERFACES.Alexa_PowerController]
  else []) ++
  (if jsStrictEqStr type "television" || jsStrictEqStr type "roku" then
    [getCapability SUPPORTED_INTERFACES.Alexa_ChannelController,
      getCapability SUPPORTED_INTERFACES.Alexa_PlaybackController]
  else []) ++
  (if jsStrictEqStr type "television" then
    [getCapability SUPPORTED_INTERFACES.Alexa_StepSpeaker,
      getCapability SUPPORTED_INTERFACES.Alexa_InputController]
  else [])

def getDiscoveryAlexaResponse (alexaEndpoints : List AlexaEndpoint) (now : Nat) : ResponseV3 :=
  getResponse SUPPORTED_INTERFACES.Alexa_Discovery "Discover.Response"
    (some (.discovery alexaEndpoints)) now

/-- Maps a 200 response body to the PowerController reported-state reply;
none models the SyntaxError thrown when the body is not JSON. -/
def getPowerControlAlexaResponse (endpointResponse : HttpResponse) (now : Nat) :
    Option ResponseV3 :=
  match jsonParse endpointResponse.responseText with
  | none => none
  | some power =>
    some
      { event := (getResponse "Alexa" "Response" none now).event,
        context := some
          [{ nspace := SUPPORTED_INTERFACES.Alexa_PowerController,
             name := "powerState",
             value := jget power "state",
             timeOfSample := jget power "isoTimestamp",
             uncertaintyInMilliseconds := jget power "uncertaintyMs" }] }

def getHttpStatusErrorResponse (response : HttpResponse) (now : Nat) : ResponseV3 :=
  getErrorResponse ERROR_TYPES.internalError
    ("Unexpected HTTP statusCode: " ++ jsNumberToString response.statusCode) now

def getPutErrorResponse (error : JsError) (now : Nat) : ResponseV3 :=
  getErrorResponse ERROR_TYPES.endpointUnreachable
    ("Failed PUT request: " ++ jsonStringifyError error) now

/-- The then-chain of the discovery handler: JSON.parse of the body, then
filter and map.  Any rejection or thrown error (transport failure, a
non-JSON body, a parsed value that is not an array and so has no filter
method) lands in the catch, which answers the empty endpoint list. -/
def discoveryProcess (res : Except JsError HttpResponse) : List AlexaEndpoint :=
  match res with
  | .error _ => []
  | .ok endpointResponse =>
    match jsonParse endpointResponse.responseText with
    | none => []
    | some (.arr endpoints) =>
      (endpoints.filter isEndpointSupported).map (fun endpoint =>
        { endpointId := jget endpoint "id",
          manufacturerName := jget endpoint "manufacturer",
          friendlyName := jget endpoint "name",
          description := jget endpoint "description",
          displayCategories := [],
          capabilities := getEndpointCapabilities endpoint })
    | some _ => []

/-- Discovery: reads payload.scope.token (throwing if any link of that
chain is absent), issues one GET, and succeeds with a Discover.Response
envelope for every transport outcome - the catch branch answers the empty
list instead of an error envelope. -/
def handleDiscoveryEvent (event : Option Event) (now : Nat) :
    HandlerResult (Except JsError HttpResponse) :=
  match ((event.bind (·.directive)).bind (·.payload)).bind (·.scope) with
  | none => .crashed
  | some scope =>
    match scope.token with
    | none => .crashed
    | some token =>
      let accessToken := token.trim
      .withCall
        { method := "GET",
          path := "/endpoints?access_token=" ++ accessToken,
          body := none,
          headers := getOptions none }
        (fun endpointResponse =>
          .succeed (getDiscoveryAlexaResponse (discoveryProcess endpointResponse) now))

def handlePowerControlEvent (event : Option Event) (now : Nat) :
    HandlerResult (Except JsError HttpResponse) :=
  match (event.bind (·.directive)).bind (·.header) with
  | none => .crashed
  | some header =>
    let directiveName := header.name
    if !(testTurnOnOff directiveName) then
      .immediate (.fail (getErrorResponse ERROR_TYPES.invalidDirective
        ("Unsupported directive name: " ++ jsUndefStr directiveName) now))
    else
      match (event.bind (·.directive)).bind (·.endpoint) with
      | none => .crashed
      | some ep =>
        match ep.scope with
        | none => .crashed
        | some scope =>
          let endpointId := jsUndefStr ep.endpointId
          let accessToken := jsUndefStr scope.token
          let postData :=
            renderJson (Json.obj
              [("state", Json.str (if directiveName == some "TurnOn" then "on" else "off"))])
          .withCall
            { method := "PUT",
              path := "/endpoints/" ++ endpointId ++ "/power?access_token=" ++ accessToken,
              body := some postData,
              headers := getOptions (some postData) }
            (fun res =>
              match res with
              | .ok endpointResponse =>
                if endpointResponse.statusCode == 200 then
                  match getPowerControlAlexaResponse endpointResponse now with
                  | some r => .succeed r
                  | none => .fail (getPutErrorResponse jsonParseSyntaxError now)
                else .fail (getHttpStatusErrorResponse endpointResponse now)
              | .error putError => .fail (getPutErrorResponse putError now))

/-- Maps a channel response body to the ChannelController reported-state
reply; none models the SyntaxError of a non-JSON body. -/
def getAlexaChannelResponse (endpointResponse : HttpResponse) (now : Nat) :
    Option ResponseV3 :=
  match jsonParse endpointResponse.responseText with
  | none => none
  | some channel =>
    some
      { event := (getResponse "Alexa" "Response" none now).event,
        context := some
          [{ nspace := "Alexa.ChannelController",
             name := "channel",
             value := jget channel "channel",
             timeOfSample := jget channel "isoTimestamp",
             uncertaintyInMilliseconds := jget channel "uncertaintyMs" }] }

/-- The 200 branch of the channel handlers calls context.success, a method
the invocation context does not provide; the TypeError (or the SyntaxError
of a non-JSON body, thrown while the argument is evaluated) is caught and
answered as the PUT-error envelope. -/
def channelContinuation (now : Nat) (res : Except JsError HttpResponse) : Outcome :=
  match res with
  | .ok endpointResponse =>
    if endpointResponse.statusCode == 200 then
      match getAlexaChannelResponse endpointResponse now with
      | some _ => .fail (getPutErrorResponse contextSuccessTypeError now)
      | none => .fail (getPutErrorResponse jsonParseSyntaxError now)
    else .fail (getHttpStatusErrorResponse endpointResponse now)
  | .error putError => .fail (getPutErrorResponse putError now)

def handleChangeChannelEvent (event : Option Event) (now : Nat) :
    HandlerResult (Except JsError HttpResponse) :=
  match (event.bind (·.directive)).bind (·.endpoint) with
  | none => .crashed
  | some ep =>
    match ep.scope with
    | none => .crashed
    | some scope =>
      match (event.bind (·.directive)).bind (·.payload) with
      | none => .crashed
      | some payload =>
        let endpointId := jsUndefStr ep.endpointId
        let accessToken := jsUndefStr scope.token
        let postData :=
          stringifyObjWithUndef
            (jsAssignIntoU [("metadata", payload.channelMetadata)] payload.channel)
        .withCall
          { method := "PUT",
            path := "/endpoints/" ++ endpointId ++ "/channel?access_token=" ++ accessToken,
            body := some postData,
            headers := getOptions (some postData) }
          (channelContinuation now)

def handleSkipChannelsEvent (event : Option Event) (now : Nat) :
    HandlerResult (Except JsError HttpResponse) :=
  match (event.bind (·.directive)).bind (·.endpoint) with
  | none => .crashed
  | some ep =>
    match (event.bind (·.directive)).bind (·.payload) with
    | none => .crashed
    | some payload =>
      let endpointId := jsUndefStr ep.endpointId
      let postData := stringifyObjWithUndef [("channelCount", payload.channelCount)]
      .withCall
        { method := "PUT",
          path := "/devices/" ++ endpointId ++ "/channel",
          body := some postData,
          headers := getOptions (some postData) }
        (channelContinuation now)

def handleChannelControlEvent (event : Option Event) (now : Nat) :
    HandlerResult (Except JsError HttpResponse) :=
  match (event.bind (·.directive)).bind (·.header) with
  | none => .crashed
  | some header =>
    let directiveName := header.name
    if directiveName == some "ChangeChannel" then handleChangeChannelEvent event now
    else if directiveName == some "SkipChannels" then handleSkipChannelsEvent event now
    else
      .immediate (.fail (getErrorResponse ERROR_TYPES.invalidDirective
        ("Unexpected directiveName: " ++ jsUndefStr directiveName) now))

def handleInputControlEvent (_event : Option Event) (now : Nat) :
    HandlerResult (Except JsError HttpResponse) :=
  .immediate (.fail (getErrorResponse ERROR_TYPES.internalError "Not yet implemented" now))

def handleStepSpeakerEvent (_event : Option Event) (now : Nat) :
    HandlerResult (Except JsError HttpResponse) :=
  .immediate (.fail (getErrorResponse ERROR_TYPES.internalError "Not yet implemented" now))

/-- The exported dispatcher of src/index.js.  Its switch has no case for
Alexa.PlaybackController: that namespace falls into the default branch. -/
def handler (event : Option Event) (now : Nat) :
    HandlerResult (Except JsError HttpResponse) :=
  if isEventValid event then
    match ((event.bind (·.directive)).bind (·.header)).bind (·.nspace) with
    | none => .crashed
    | some nspace =>
      if nspace == SUPPORTED_INTERFACES.Alexa_Discovery then handleDiscoveryEvent event now
      else if nspace == SUPPORTED_INTERFACES.Alexa_PowerController then
        handlePowerControlEvent event now
      else if nspace == SUPPORTED_INTERFACES.Alexa_InputController then
        handleInputControlEvent event now
      else if nspace == SUPPORTED_INTERFACES.Alexa_ChannelController then
        handleChannelControlEvent event now
      else if nspace == SUPPORTED_INTERFACES.Alexa_StepSpeaker then
        handleStepSpeakerEvent event now
      else
        .immediate (.fail (getErrorResponse ERROR_TYPES.internalError
          ("Unsupported namespace: " ++ nspace) now))
  else
    .immediate (.fail (getErrorResponse ERROR_TYPES.internalError
      ("Invalid event: " ++ jsStringifyEvent event) now))

end IndexJs

/-- The handler a dispatcher switch selects from the inbound namespace. -/
inductive Route where
  | discovery
  | power
  | input
  | channel
  | stepSpeaker
  | playback
  | unsupportedNamespace

/-- Readout of the namespace switch of src/index.js: there is no case for
Alexa.PlaybackController. -/
def IndexJs.routeOf (nspace : String) : Route :=
  if nspace == SUPPORTED_INTERFACES.Alexa_Discovery then .discovery
  else if nspace == SUPPORTED_INTERFACES.Alexa_PowerController then .power
  else if nspace == SUPPORTED_INTERFACES.Alexa_InputController then .input
  else if nspace == SUPPORTED_INTERFACES.Alexa_ChannelController then .channel
  else if nspace == SUPPORTED_INTERFACES.Alexa_StepSpeaker then .stepSpeaker
  else .unsupportedNamespace

/-! ## src/code.js, versioned revision

The third handler concatenated into src/code.js: the same versioned shape
as src/index.js, but its promise wrapper turns a non-200 status into a
rejection, its capability table gives television no PlaybackController,
and its dispatcher has a PlaybackController case. -/

namespace CodeJsV3

/-- The promise wrapper of the src/code.js versioned revision: a then step
turns a completed non-200 response into a rejection. -/
def httpPromise (s : SocketResult) : Except JsError HttpResponse :=
  match s with
  | .err e => .error e
  | .resp r =>
    if r.statusCode == 200 then
      .ok { statusCode := r.statusCode, headers := r.headers, responseText := r.responseText }
    else .error { message := "HTTP " ++ jsNumberToString r.statusCode, enumerableProps := [] }

def getEndpointCapabilities (endpoint : Json) : List Capability :=
  let type := jget endpoint "type"
  (if jsStrictEqStr type "switchBinary" || jsStrictEqStr type "television" then
    [IndexJs.getCapability SUPPORTED_INTERFACES.Alexa_PowerController]
  else []) ++
  (if jsStrictEqStr type "television" || jsStrictEqStr type "roku" then
    [IndexJs.getCapability SUPPORTED_INTERFACES.Alexa_ChannelController]
  else []) ++
  (if jsStrictEqStr type "television" then
    [IndexJs.getCapability SUPPORTED_INTERFACES.Alexa_StepSpeaker,
      IndexJs.getCapability SUPPORTED_INTERFACES.Alexa_InputController]
  else []) ++
  (if jsStrictEqStr type "roku" then
    [IndexJs.getCapability SUPPORTED_INTERFACES.Alexa_PlaybackController]
  else [])

/-- Readout of the namespace switch of the src/code.js versioned revision:
it does have a PlaybackController case. -/
def routeOf (nspace : String) : Route :=
  if nspace == SUPPORTED_INTERFACES.Alexa_Discovery then .discovery
  else if nspace == SUPPORTED_INTERFACES.Alexa_PowerController then .power
  else if nspace == SUPPORTED_INTERFACES.Alexa_InputController then .input
  else if nspace == SUPPORTED_INTERFACES.Alexa_ChannelController then .channel
  else if nspace == SUPPORTED_INTERFACES.Alexa_StepSpeaker then .stepSpeaker
  else if nspace == SUPPORTED_INTERFACES.Alexa_PlaybackController then .playback
  else .unsupportedNamespace

end CodeJsV3

/-! ## src/unnamed/part_001, legacy revision

Only its envelope builder matters to the claims: the legacy flat shape
with payloadVersion "2". -/

namespace Part001Legacy

def getResponse (name nspace : String) (payload : Option Json) (now : Nat) : LegacyResponse :=
  { header :=
      { messageId := jsNumberToString now,
        name := name,
        nspace := nspace,
        payloadVersion := "2" },
    payload := payload.getD (Json.obj []) }

end Part001Legacy

/-! ## src/unnamed/part_000 (latest revision) -/

/-- Models JS String.replace with a single-character string pattern: only
the first occurrence is replaced. -/
def replaceFirstChar : List Char → Char → Char → List Char
  | [], _, _ => []
  | c :: cs, pat, rep => if c = pat then rep :: cs else c :: replaceFirstChar cs pat rep

def jsReplaceFirst (s : String) (pat rep : Char) : String :=
  String.mk (replaceFirstChar s.data pat rep)

namespace Part000

/-- The HTTP headers of getOptions in part_000 (the Accept key is
capitalized in this revision). -/
def getOptions (postString : Option String) : List (String × String) :=
  [("Accept", "*/*"),
    ("Content-Type", "application/json"),
    ("Content-Length",
      match postString with
      | some s => jsNumberToString s.utf8ByteSize
      | none => jsNumberToString 0)]

/-- The promise wrapper of part_000: rejects on socket error and on any
non-200 status, and resolves the JSON.parse of the body.  A 200 body that
is not JSON makes JSON.parse throw inside the response end callback, so
the promise never settles. -/
def httpPromise (s : SocketResult) : PromiseOutcome Json :=
  match s with
  | .err e => .rejected e
  | .resp r =>
    if r.statusCode == 200 then
      match jsonParse r.responseText with
      | some j => .resolved j
      | none => .stuck
    else .rejected { message := "HTTP " ++ jsNumberToString r.statusCode, enumerableProps := [] }

def getReply (nspace name : String) (payload : Option ResponsePayload) (now : Nat) :
    ResponseV3 :=
  { event :=
      { header :=
          { messageId := jsNumberToString now,
            name := name,
            nspace := nspace,
            payloadVersion := "3" },
        payload := payload.getD .emptyObj },
    context := none }

/-- An argument of the variadic getErrorReply, after the first: a string,
an undefined value, an Error, or another object. -/
inductive JsArg where
  | s (v : String)
  | undef
  | err (e : JsError)
  | obj (j : Json)

def renderArg : JsArg → String
  | .s v => v
  | .undef => "undefined"
  | .err e => jsonStringifyError e
  | .obj j => renderJson j

/-- getErrorReply(type, ...args): the message joins the stringified
arguments with single spaces. -/
def getErrorReply (type : String) (args : List JsArg) (now : Nat) : ResponseV3 :=
  getReply "Alexa" "ErrorResponse"
    (some (.errorInfo type (String.intercalate " " (args.map renderArg)))) now

/-- hasOwnProperty on this revision's SUPPORTED_ENDPOINT_TYPES object,
whose keys are zwitch, roku and television. -/
def supportedTypesHasOwn (t : Option Json) : Bool :=
  let key :=
    match t with
    | none => "undefined"
    | some j => jsToString j
  key == "zwitch" || key == "roku" || key == "television"

def isEndpointSupported (endpoint : Json) : Bool :=
  jTruthy endpoint &&
  jTruthyOpt (jget endpoint "id") &&
  jTruthyOpt (jget endpoint "name") &&
  jTruthyOpt (jget endpoint "description") &&
  jTruthyOpt (jget endpoint "manufacturer") &&
  supportedTypesHasOwn (jget endpoint "type")

def getEndpointCapabilities (endpoint : Json) : List Capability :=
  let type := jget endpoint "type"
  (if jsStrictEqStr type "zwitch" || jsStrictEqStr type "television" then
    [IndexJs.getCapability SUPPORTED_INTERFACES.Alexa_PowerController]
  else []) ++
  (if jsStrictEqStr type "television" || jsStrictEqStr type "roku" then
    [IndexJs.getCapability SUPPORTED_INTERFACES.Alexa_ChannelController]
  else []) ++
  (if jsStrictEqStr type "television" then
    [IndexJs.getCapability SUPPORTED_INTERFACES.Alexa_StepSpeaker,
      IndexJs.getCapability SUPPORTED_INTERFACES.Alexa_InputController]
  else []) ++
  (if jsStrictEqStr type "roku" then
    [IndexJs.getCapability SUPPORTED_INTERFACES.Alexa_PlaybackController]
  else [])

/-- Maps the kept device descriptors to outbound endpoints; none models
the TypeError thrown when a kept descriptor's id is truthy but not a
string (id.replace is then not a function). -/
def mapEndpoints : List Json → Option (List AlexaEndpoint)
  | [] => some []
  | endpoint :: rest =>
    match jget endpoint "id" with
    | some (.str s) =>
      (mapEndpoints rest).map (fun tail =>
        { endpointId := some (Json.str (jsReplaceFirst s '.' '#')),
          manufacturerName := jget endpoint "manufacturer",
          friendlyName := jget endpoint "name",
          description := jget endpoint "description",
          displayCategories := [],
          capabilities := getEndpointCapabilities endpoint } :: tail)
    | _ => none

/-- getDiscoveryReply: filters the parsed descriptor list and maps each
kept descriptor, rewriting the first "." of its id to "#" in the outbound
endpointId.  none models a throw (the parsed value is not an array, or a
kept id is not a string); the caller's catch then answers the empty
reply. -/
def getDiscoveryReply (endpoints : Json) (now : Nat) : Option ResponseV3 :=
  match endpoints with
  | .arr eps =>
    (mapEndpoints (eps.filter isEndpointSupported)).map (fun compatibleEndpoints =>
      getReply SUPPORTED_INTERFACES.Alexa_Discovery "Discover.Response"
        (some (.discovery compatibleEndpoints)) now)
  | _ => none

/-- The empty discovery reply the catch branch produces. -/
def emptyDiscoveryReply (now : Nat) : ResponseV3 :=
  getReply SUPPORTED_INTERFACES.Alexa_Discovery "Discover.Response"
    (some (.discovery [])) now

def handleDiscoveryEvent (event : Option Event) (now : Nat) :
    HandlerResult (PromiseOutcome Json) :=
  match ((event.bind (·.directive)).bind (·.payload)).bind (·.scope) with
  | none => .crashed
  | some scope =>
    match scope.token with
    | none => .crashed
    | some token =>
      let accessToken := token.trim
      .withCall
        { method := "GET",
          path := "/endpoints?access_token=" ++ accessToken,
          body := none,
          headers := getOptions none }
        (fun res =>
          match res with
          | .resolved endpoints =>
            match getDiscoveryReply endpoints now with
            | some reply => .succeed reply
            | none => .succeed (emptyDiscoveryReply now)
          | .rejected _ => .succeed (emptyDiscoveryReply now)
          | .stuck => .hang)

/-- getEndpointId: rewrites the first "#" of the inbound endpointId back
to "."; none models the throw when the endpoint object or its endpointId
is absent. -/
def getEndpointId (event : Option Event) : Option String :=
  match (event.bind (·.directive)).bind (·.endpoint) with
  | none => none
  | some ep =>
    match ep.endpointId with
    | none => none
    | some eid => some (jsReplaceFirst eid '#' '.')

/-- getEndpointToken: the outer none models the throw when the endpoint or
its scope is absent; the inner option is the possibly-undefined token. -/
def getEndpointToken (event : Option Event) : Option (Option String) :=
  match (event.bind (·.directive)).bind (·.endpoint) with
  | none => none
  | some ep =>
    match ep.scope with
    | none => none
    | some scope => some scope.token

def getInvalidDirectiveReply (directiveName : Option String) (now : Nat) : ResponseV3 :=
  getErrorReply ERROR_TYPES.invalidDirective
    [match directiveName with
     | some s => .s s
     | none => .undef] now

def getServiceErrorReply (error : JsError) (now : Nat) : ResponseV3 :=
  getErrorReply ERROR_TYPES.endpointUnreachable [.err error] now

def getPowerControlReply (power : Json) (now : Nat) : ResponseV3 :=
  { event := (getReply "Alexa" "Response" none now).event,
    context := some
      [{ nspace := SUPPORTED_INTERFACES.Alexa_PowerController,
         name := "powerState",
         value := jget power "state",
         timeOfSample := jget power "isoTimestamp",
         uncertaintyInMilliseconds := jget power "uncertaintyMs" }] }

def handlePowerControlEvent (event : Option Event) (now : Nat) :
    HandlerResult (PromiseOutcome Json) :=
  match (event.bind (·.directive)).bind (·.header) with
  | none => .crashed
  | some header =>
    let directiveName := header.name
    if !(testTurnOnOff directiveName) then
      .immediate (.fail (getInvalidDirectiveReply directiveName now))
    else
      match getEndpointId event with
      | none => .crashed
      | some endpointId =>
        match getEndpointToken event with
        | none => .crashed
        | some token =>
          let accessToken := jsUndefStr token
          let postData :=
            renderJson (Json.obj
              [("state", Json.str (if directiveName == some "TurnOn" then "on" else "off"))])
          .withCall
            { method := "POST",
              path := "/endpoints/" ++ endpointId ++ "/power?access_token=" ++ accessToken,
              body := some postData,
              headers := getOptions (some postData) }
            (fun res =>
              match res with
              | .resolved power => .succeed (getPowerControlReply power now)
              | .rejected e => .fail (getServiceErrorReply e now)
              | .stuck => .hang)

def getChannelReply (channel : Json) (now : Nat) : ResponseV3 :=
  { event := (getReply "Alexa" "Response" none now).event,
    context := some
      [{ nspace := "Alexa.ChannelController",
         name := "channel",
         value := some (Json.obj (optField "number" (jget channel "state"))),
         timeOfSample := jget channel "isoTimestamp",
         uncertaintyInMilliseconds := jget channel "uncertaintyMs" }] }

def getInputReply (input : Json) (now : Nat) : ResponseV3 :=
  { event := (getReply "Alexa" "Response" none now).event,
    context := some
      [{ nspace := "Alexa.InputController",
         name := "input",
         value := jget input "state",
         timeOfSample := jget input "isoTimestamp",
         uncertaintyInMilliseconds := jget input "uncertaintyMs" }] }

def getStepSpeakerReply (now : Nat) : ResponseV3 :=
  getReply "Alexa" "Response" none now

def handleChangeChannelEvent (event : Option Event) (now : Nat) :
    HandlerResult (PromiseOutcome Json) :=
  match getEndpointId event with
  | none => .crashed
  | some endpointId =>
    match getEndpointToken event with
    | none => .crashed
    | some token =>
      match (event.bind (·.directive)).bind (·.payload) with
      | none => .crashed
      | some payload =>
        let accessToken := jsUndefStr token
        let postData :=
          stringifyObjWithUndef
            (jsAssignIntoU [("metadata", payload.channelMetadata)] payload.channel)
        .withCall
          { method := "POST",
            path := "/endpoints/" ++ endpointId ++ "/channel?access_token=" ++ accessToken,
            body := some postData,
            headers := getOptions (some postData) }
          (fun res =>
            match res with
            | .resolved channel => .succeed (getChannelReply channel now)
            | .rejected e => .fail (getServiceErrorReply e now)
            | .stuck => .hang)

def handleSkipChannelsEvent (event : Option Event) (now : Nat) :
    HandlerResult (PromiseOutcome Json) :=
  match getEndpointId event with
  | none => .crashed
  | some endpointId =>
    match (event.bind (·.directive)).bind (·.payload) with
    | none => .crashed
    | some payload =>
      let postData := stringifyObjWithUndef [("delta", payload.channelCount)]
      .withCall
        { method := "POST",
          path := "/endpoints/" ++ endpointId ++ "/channel",
          body := some postData,
          headers := getOptions (some postData) }
        (fun res =>
          match res with
          | .resolved channel => .succeed (getChannelReply channel now)
          | .rejected e => .fail (getServiceErrorReply e now)
          | .stuck => .hang)

def handleChannelControlEvent (event : Option Event) (now : Nat) :
    HandlerResult (PromiseOutcome Json) :=
  match (event.bind (·.directive)).bind (·.header) with
  | none => .crashed
  | some header =>
    let directiveName := header.name
    if directiveName == some "ChangeChannel" then handleChangeChannelEvent event now
    else if directiveName == some "SkipChannels" then handleSkipChannelsEvent event now
    else .immediate (.fail (getInvalidDirectiveReply directiveName now))

/-- The input handler.  Its catch branch reads
catch(error => fail(getServiceErrorReply(error)), context): the context is
passed to catch instead of fail, so on rejection the undefined context's
fail method throws inside the catch callback and no answer is produced. -/
def handleInputControlEvent (event : Option Event) (now : Nat) :
    HandlerResult (PromiseOutcome Json) :=
  match (event.bind (·.directive)).bind (·.header) with
  | none => .crashed
  | some header =>
    let directiveName := header.name
    match getEndpointId event with
    | none => .crashed
    | some endpointId =>
      match getEndpointToken event with
      | none => .crashed
      | some token =>
        match (event.bind (·.directive)).bind (·.payload) with
        | none => .crashed
        | some payload =>
          let accessToken := jsUndefStr token
          let postData := stringifyObjWithUndef [("input", payload.input)]
          if directiveName == some "SelectInput" then
            .withCall
              { method := "POST",
                path := "/endpoints/" ++ endpointId ++ "/input?access_token=" ++ accessToken,
                body := some postData,
                headers := getOptions (some postData) }
              (fun res =>
                match res with
                | .resolved input => .succeed (getInputReply input now)
                | .rejected _ => .crash
                | .stuck => .hang)
          else .immediate (.fail (getInvalidDirectiveReply directiveName now))

def handleStepSpeakerEvent (event : Option Event) (now : Nat) :
    HandlerResult (PromiseOutcome Json) :=
  match (event.bind (·.directive)).bind (·.header) with
  | none => .crashed
  | some header =>
    let directiveName := header.name
    match getEndpointId event with
    | none => .crashed
    | some endpointId =>
      match getEndpointToken event with
      | none => .crashed
      | some token =>
        let accessToken := jsUndefStr token
        let issue := fun (postData : String) =>
          HandlerResult.withCall
            { method := "POST",
              path := "/endpoints/" ++ endpointId ++ "/volume?accessToken=" ++ accessToken,
              body := some postData,
              headers := getOptions (some postData) }
            (fun res =>
              match res with
              | .resolved _ => Outcome.succeed (getStepSpeakerReply now)
              | .rejected e => Outcome.fail (getServiceErrorReply e now)
              | .stuck => Outcome.hang)
        if directiveName == some "SetMute" then
          match (event.bind (·.directive)).bind (·.payload) with
          | none => .crashed
          | some payload => issue (stringifyObjWithUndef [("mute", payload.mute)])
        else if directiveName == some "AdjustVolume" then
          match (event.bind (·.directive)).bind (·.payload) with
          | none => .crashed
          | some payload => issue (stringifyObjWithUndef [("delta", payload.volumeSteps)])
        else .immediate (.fail (getInvalidDirectiveReply directiveName now))

def SUPPORTED_PLAYBACK_DIRECTIVES : List String :=
  ["FastForward", "Next", "Pause", "Play", "Previous", "Rewind", "StartOver", "Stop"]

/-- indexOf(directiveName) against the supported list is not -1 exactly
when the name is a member; an undefined name is never a member. -/
def isPlaybackDirectiveValid (directiveName : Option String) : Bool :=
  match directiveName with
  | some s => decide (s ∈ SUPPORTED_PLAYBACK_DIRECTIVES)
  | none => false

def getPlaybackControlReply (now : Nat) : ResponseV3 :=
  { event := (getReply "Alexa" "Response" none now).event,
    context := some [] }

def handlePlaybackControlEvent (event : Option Event) (now : Nat) :
    HandlerResult (PromiseOutcome Json) :=
  match (event.bind (·.directive)).bind (·.header) with
  | none => .crashed
  | some header =>
    let directiveName := header.name
    match getEndpointId event with
    | none => .crashed
    | some endpointId =>
      match getEndpointToken event with
      | none => .crashed
      | some token =>
        let accessToken := jsUndefStr token
        if isPlaybackDirectiveValid directiveName then
          let postData :=
            stringifyObjWithUndef [("directive", (directiveName.map Json.str))]
          .withCall
            { method := "POST",
              path := "/endpoints/" ++ endpointId ++ "/playback?accessToken=" ++ accessToken,
              body := some postData,
              headers := getOptions (some postData) }
            (fun res =>
              match res with
              | .resolved _ => .succeed (getPlaybackControlReply now)
              | .rejected e => .fail (getServiceErrorReply e now)
              | .stuck => .hang)
        else .immediate (.fail (getInvalidDirectiveReply directiveName now))

/-- The JsArg stringification of the whole inbound event, for the
invalid-event log message. -/
def eventArg : Option Event → JsArg
  | none => .undef
  | some e => .obj e.toJson

/-- The exported dispatcher of part_000; its switch covers all six
namespaces. -/
def handler (event : Option Event) (now : Nat) : HandlerResult (PromiseOutcome Json) :=
  if isEventValid event then
    match ((event.bind (·.directive)).bind (·.header)).bind (·.nspace) with
    | none => .crashed
    | some nspace =>
      if nspace == SUPPORTED_INTERFACES.Alexa_Discovery then handleDiscoveryEvent event now
      else if nspace == SUPPORTED_INTERFACES.Alexa_PowerController then
        handlePowerControlEvent event now
      else if nspace == SUPPORTED_INTERFACES.Alexa_InputController then
        handleInputControlEvent event now
      else if nspace == SUPPORTED_INTERFACES.Alexa_ChannelController then
        handleChannelControlEvent event now
      else if nspace == SUPPORTED_INTERFACES.Alexa_StepSpeaker then
        handleStepSpeakerEvent event now
      else if nspace == SUPPORTED_INTERFACES.Alexa_PlaybackController then
        handlePlaybackControlEvent event now
      else
        .immediate (.fail (getErrorReply ERROR_TYPES.internalError
          [.s "Unsupported namespace", .s nspace] now))
  else
    .immediate (.fail (getErrorReply ERROR_TYPES.internalError
      [.s "Invalid event", eventArg event] now))

/-- Readout of the namespace switch of part_000. -/
def routeOf (nspace : String) : Route :=
  if nspace == SUPPORTED_INTERFACES.Alexa_Discovery then .discovery
  else if nspace == SUPPORTED_INTERFACES.Alexa_PowerController then .power
  else if nspace == SUPPORTED_INTERFACES.Alexa_InputController then .input
  else if nspace == SUPPORTED_INTERFACES.Alexa_ChannelController then .channel
  else if nspace == SUPPORTED_INTERFACES.Alexa_StepSpeaker then .stepSpeaker
  else if nspace == SUPPORTED_INTERFACES.Alexa_PlaybackController then .playback
  else .unsupportedNamespace

end Part000

/-! ## Statement helpers and shared lemmas -/

/-- A well-formed control directive: namespace and name in the header, an
endpoint with id and bearer token, an otherwise empty payload. -/
def mkControlEvent (nspace name endpointId token : String) : Option Event :=
  some
    { directive := some
        { header := some { nspace := some nspace, name := some name },
          payload := some emptyDirectivePayload,
          endpoint := some
            { endpointId := some endpointId, scope := some { token := some token } } } }

/-- A well-formed discovery directive: the bearer token sits in the
payload scope. -/
def mkDiscoveryEvent (name token : String) : Option Event :=
  some
    { directive := some
        { header := some
            { nspace := some SUPPORTED_INTERFACES.Alexa_Discovery, name := some name },
          payload := some { emptyDirectivePayload with scope := some { token := some token } },
          endpoint := none } }

/-- The namespace read off an inbound envelope, none when any link of the
chain is missing. -/
def directiveNamespace (event : Option Event) : Option String :=
  ((event.bind (·.directive)).bind (·.header)).bind (·.nspace)

/-- The directive name read off an inbound envelope. -/
def directiveName (event : Option Event) : Option String :=
  ((event.bind (·.directive)).bind (·.header)).bind (·.name)

theorem some_beq_some {α : Type} [BEq α] (a b : α) : (some a == some b) = (a == b) := rfl

/-- An envelope missing its namespace or its name fails the shared
validity check. -/
theorem isEventValid_eq_false_of_missing (event : Option Event)
    (h : directiveNamespace event = none ∨ directiveName event = none) :
    isEventValid event = false := by
  match event with
  | none => rfl
  | some { directive := none } => rfl
  | some { directive := some { header := none, payload := _, endpoint := _ } } => rfl
  | some { directive := some { header := some hd, payload := _, endpoint := _ } } =>
    match hns : hd.nspace, hnm : hd.name with
    | none, _ => simp [isEventValid, hns]
    | some _, none => simp [isEventValid, hns, hnm]
    | some _, some _ =>
      simp [directiveNamespace, directiveName, Option.bind, hns, hnm] at h

theorem replaceFirst_roundtrip (l : List Char) (h : '#' ∉ l) :
    replaceFirstChar (replaceFirstChar l '.' '#') '#' '.' = l := by
  induction l with
  | nil => rfl
  | cons c cs ih =>
    have hmem : '#' ≠ c ∧ '#' ∉ cs := by
      constructor
      · exact List.ne_of_not_mem_cons h
      · exact List.not_mem_of_not_mem_cons h
    rw [replaceFirstChar]
    by_cases hc : c = '.'
    · rw [if_pos hc, replaceFirstChar, if_pos rfl, hc]
    · rw [if_neg hc, replaceFirstChar, if_neg (fun hh => hmem.1 hh.symm)]
      rw [ih hmem.2]

theorem jsReplaceFirst_roundtrip (s : String) (h : '#' ∉ s.data) :
    jsReplaceFirst (jsReplaceFirst s '.' '#') '#' '.' = s := by
  cases s with
  | mk data =>
    show String.mk (replaceFirstChar (replaceFirstChar data '.' '#') '#' '.') = String.mk data
    rw [replaceFirst_roundtrip data h]

/-! ## Claims -/

/-- C1 counterexample: the claim also covers the discovery handler of the
latest revision, and there a 200 response whose body is unparsable JSON
does not succeed with an empty endpoint list: JSON.parse throws inside the
response end callback, the promise never settles (the shim yields the
stuck outcome), the catch never fires, and the invocation hangs without
any reply. -/
theorem C1_counterexample :
    Part000.httpPromise
        (.resp { statusCode := 200, headers := [], responseText := "not json" }) =
      .stuck ∧
    (Part000.handler (mkDiscoveryEvent "Discover" "tok") 0).resume .stuck =
      some .hang := by
  exact ⟨rfl, rfl⟩

/-- C1 amended: the discovery handlers never produce an error envelope.
In src/index.js the handler issues one GET and succeeds for every
transport outcome, with an empty endpoint list when the transport call
fails or the response body is unparsable JSON.  In the latest revision the
handler likewise issues one GET and succeeds with an empty list on every
rejection (socket error or non-200 status) and on a parsed body the reply
builder cannot use, but a 200 response whose body is not JSON makes the
shim's promise never settle, so no reply - success or error - is ever
produced. -/
theorem C1_amended_discovery_never_errors (name token : String) (now : Nat)
    (hname : name ≠ "") :
    (IndexJs.handler (mkDiscoveryEvent name token) now).request? =
      some { method := "GET", path := "/endpoints?access_token=" ++ token.trim,
             body := none, headers := IndexJs.getOptions none } ∧
    (∀ res : Except JsError HttpResponse,
      (IndexJs.handler (mkDiscoveryEvent name token) now).resume res =
        some (.succeed
          (IndexJs.getDiscoveryAlexaResponse (IndexJs.discoveryProcess res) now))) ∧
    (∀ eps,
      (IndexJs.getDiscoveryAlexaResponse eps now).event.header.nspace =
          SUPPORTED_INTERFACES.Alexa_Discovery ∧
      (IndexJs.getDiscoveryAlexaResponse eps now).event.header.name = "Discover.Response") ∧
    (∀ e, IndexJs.discoveryProcess (.error e) = []) ∧
    (∀ r : HttpResponse, jsonParse r.responseText = none →
      IndexJs.discoveryProcess (.ok r) = []) ∧
    (Part000.handler (mkDiscoveryEvent name token) now).request? =
      some { method := "GET", path := "/endpoints?access_token=" ++ token.trim,
             body := none, headers := Part000.getOptions none } ∧
    (∀ e : JsError,
      (Part000.handler (mkDiscoveryEvent name token) now).resume (.rejected e) =
        some (.succeed (Part000.emptyDiscoveryReply now))) ∧
    (∀ j reply, Part000.getDiscoveryReply j now = some reply →
      (Part000.handler (mkDiscoveryEvent name token) now).resume (.resolved j) =
        some (.succeed reply)) ∧
    (∀ j, Part000.getDiscoveryReply j now = none →
      (Part000.handler (mkDiscoveryEvent name token) now).resume (.resolved j) =
        some (.succeed (Part000.emptyDiscoveryReply now))) ∧
    (Part000.handler (mkDiscoveryEvent name token) now).resume .stuck = some .hang ∧
    (∀ r : HttpResponse, r.statusCode = 200 → jsonParse r.responseText = none →
      Part000.httpPromise (.resp r) = .stuck) ∧
    (Part000.emptyDiscoveryReply now).event.header.nspace =
      SUPPORTED_INTERFACES.Alexa_Discovery ∧
    (Part000.emptyDiscoveryReply now).event.header.name = "Discover.Response" := by
  have hvalid : isEventValid (mkDiscoveryEvent name token) = true := by
    simp [isEventValid, mkDiscoveryEvent, SUPPORTED_INTERFACES.Alexa_Discovery, hname]
  have hdisp : IndexJs.handler (mkDiscoveryEvent name token) now =
      IndexJs.handleDiscoveryEvent (mkDiscoveryEvent name token) now := by
    unfold IndexJs.handler
    rw [hvalid]
    rfl
  have hdisp0 : Part000.handler (mkDiscoveryEvent name token) now =
      Part000.handleDiscoveryEvent (mkDiscoveryEvent name token) now := by
    unfold Part000.handler
    rw [hvalid]
    rfl
  refine ⟨?_, ?_, ?_, ?_, ?_, ?_, ?_, ?_, ?_, ?_, ?_, rfl, rfl⟩
  · rw [hdisp]; rfl
  · intro res; rw [hdisp]; rfl
  · intro eps; exact ⟨rfl, rfl⟩
  · intro e; rfl
  · intro r hr
    simp [IndexJs.discoveryProcess, hr]
  · rw [hdisp0]; rfl
  · intro e; rw [hdisp0]; rfl
  · intro j reply hsome
    rw [hdisp0]
    show (some (match Part000.getDiscoveryReply j now with
        | some found => Outcome.succeed found
        | none => Outcome.succeed (Part000.emptyDiscoveryReply now)) : Option Outcome) =
      some (Outcome.succeed reply)
    rw [hsome]
  · intro j hnone
    rw [hdisp0]
    show (some (match Part000.getDiscoveryReply j now with
        | some found => Outcome.succeed found
        | none => Outcome.succeed (Part000.emptyDiscoveryReply now)) : Option Outcome) =
      some (Outcome.succeed (Part000.emptyDiscoveryReply now))
    rw [hnone]
  · rw [hdisp0]; rfl
  · intro r h200 hparse
    simp [Part000.httpPromise, h200, hparse]

/-- C1 witness: a concrete discovery directive whose transport call fails
still succeeds in both revisions, with the empty endpoint list. -/
theorem C1_witness :
    (IndexJs.handler (mkDiscoveryEvent "Discover" "tok") 0).resume
        (.error { message := "boom", enumerableProps := [] }) =
      some (.succeed (IndexJs.getDiscoveryAlexaResponse [] 0)) ∧
    (Part000.handler (mkDiscoveryEvent "Discover" "tok") 0).resume
        (.rejected { message := "boom", enumerableProps := [] }) =
      some (.succeed (Part000.emptyDiscoveryReply 0)) := by
  have h := C1_amended_discovery_never_errors "Discover" "tok" 0 (by decide)
  exact ⟨h.2.1 (.error { message := "boom", enumerableProps := [] }),
    h.2.2.2.2.2.2.1 { message := "boom", enumerableProps := [] }⟩

/-- C2 counterexample: the claim says every capability resolver maps
television to a set containing PlaybackController (among its five
entries), but the resolver of the src/code.js versioned revision omits
PlaybackController for television - only src/index.js's resolver returns
the claimed set. -/
theorem C2_counterexample :
    ((CodeJsV3.getEndpointCapabilities (Json.obj [("type", Json.str "television")])).map
        Capability.iface).contains SUPPORTED_INTERFACES.Alexa_PlaybackController = false ∧
    ((IndexJs.getEndpointCapabilities (Json.obj [("type", Json.str "television")])).map
        Capability.iface).contains SUPPORTED_INTERFACES.Alexa_PlaybackController = true := by
  exact ⟨rfl, rfl⟩

/-- C2 amended: src/index.js's resolver returns exactly the table's sets
(switchBinary to PowerController alone; television to all five interfaces;
roku to ChannelController and PlaybackController).  The src/code.js
versioned resolver and the latest revision's resolver omit
PlaybackController for television; the latest revision names the
binary-switch type zwitch, so switchBinary is unknown to it.  Unknown
types yield the empty set in every revision. -/
theorem C2_amended_capabilities (e : Json) (t : String) :
    (jget e "type" = some (Json.str "switchBinary") →
      (IndexJs.getEndpointCapabilities e).map Capability.iface =
        [SUPPORTED_INTERFACES.Alexa_PowerController]) ∧
    (jget e "type" = some (Json.str "television") →
      (IndexJs.getEndpointCapabilities e).map Capability.iface =
        [SUPPORTED_INTERFACES.Alexa_PowerController,
          SUPPORTED_INTERFACES.Alexa_ChannelController,
          SUPPORTED_INTERFACES.Alexa_PlaybackController,
          SUPPORTED_INTERFACES.Alexa_StepSpeaker,
          SUPPORTED_INTERFACES.Alexa_InputController]) ∧
    (jget e "type" = some (Json.str "roku") →
      (IndexJs.getEndpointCapabilities e).map Capability.iface =
        [SUPPORTED_INTERFACES.Alexa_ChannelController,
          SUPPORTED_INTERFACES.Alexa_PlaybackController]) ∧
    (jget e "type" = some (Json.str "television") →
      (CodeJsV3.getEndpointCapabilities e).map Capability.iface =
        [SUPPORTED_INTERFACES.Alexa_PowerController,
          SUPPORTED_INTERFACES.Alexa_ChannelController,
          SUPPORTED_INTERFACES.Alexa_StepSpeaker,
          SUPPORTED_INTERFACES.Alexa_InputController]) ∧
    (jget e "type" = some (Json.str "zwitch") →
      (Part000.getEndpointCapabilities e).map Capability.iface =
        [SUPPORTED_INTERFACES.Alexa_PowerController]) ∧
    (jget e "type" = some (Json.str "television") →
      (Part000.getEndpointCapabilities e).map Capability.iface =
        [SUPPORTED_INTERFACES.Alexa_PowerController,
          SUPPORTED_INTERFACES.Alexa_ChannelController,
          SUPPORTED_INTERFACES.Alexa_StepSpeaker,
          SUPPORTED_INTERFACES.Alexa_InputController]) ∧
    (jget e "type" = some (Json.str "roku") →
      (Part000.getEndpointCapabilities e).map Capability.iface =
        [SUPPORTED_INTERFACES.Alexa_ChannelController,
          SUPPORTED_INTERFACES.Alexa_PlaybackController]) ∧
    (jget e "type" = some (Json.str t) →
      t ≠ "switchBinary" → t ≠ "television" → t ≠ "roku" →
      (IndexJs.getEndpointCapabilities e).map Capability.iface = [] ∧
      (CodeJsV3.getEndpointCapabilities e).map Capability.iface = []) ∧
    (jget e "type" = some (Json.str t) →
      t ≠ "zwitch" → t ≠ "television" → t ≠ "roku" →
      (Part000.getEndpointCapabilities e).map Capability.iface = []) := by
  refine ⟨?_, ?_, ?_, ?_, ?_, ?_, ?_, ?_, ?_⟩
  · intro h; unfold IndexJs.getEndpointCapabilities; rw [h]; rfl
  · intro h; unfold IndexJs.getEndpointCapabilities; rw [h]; rfl
  · intro h; unfold IndexJs.getEndpointCapabilities; rw [h]; rfl
  · intro h; unfold CodeJsV3.getEndpointCapabilities; rw [h]; rfl
  · intro h; unfold Part000.getEndpointCapabilities; rw [h]; rfl
  · intro h; unfold Part000.getEndpointCapabilities; rw [h]; rfl
  · intro h; unfold Part000.getEndpointCapabilities; rw [h]; rfl
  · intro h h1 h2 h3
    constructor
    · unfold IndexJs.getEndpointCapabilities
      rw [h]
      simp [jsStrictEqStr, h1, h2, h3]
    · unfold CodeJsV3.getEndpointCapabilities
      rw [h]
      simp [jsStrictEqStr, h1, h2, h3]
  · intro h h1 h2 h3
    unfold Part000.getEndpointCapabilities
    rw [h]
    simp [jsStrictEqStr, h1, h2, h3]

/-- C2 witness: the amended statement evaluated at a television endpoint
and at an unknown thermostat type. -/
theorem C2_witness :
    (IndexJs.getEndpointCapabilities (Json.obj [("type", Json.str "thermostat")])).map
        Capability.iface = [] ∧
    (Part000.getEndpointCapabilities (Json.obj [("type", Json.str "television")])).map
        Capability.iface =
      [SUPPORTED_INTERFACES.Alexa_PowerController,
        SUPPORTED_INTERFACES.Alexa_ChannelController,
        SUPPORTED_INTERFACES.Alexa_StepSpeaker,
        SUPPORTED_INTERFACES.Alexa_InputController] := by
  have h := C2_amended_capabilities (Json.obj [("type", Json.str "thermostat")]) "thermostat"
  have h' := C2_amended_capabilities (Json.obj [("type", Json.str "television")]) "television"
  exact ⟨(h.2.2.2.2.2.2.2.1 rfl (by decide) (by decide) (by decide)).1,
    h'.2.2.2.2.2.1 rfl⟩

/-- C3: an inbound envelope missing the directive header's namespace or
name is answered immediately - before dispatch, with no transport call -
by an InternalError error envelope, in src/index.js and in the latest
revision alike. -/
theorem C3_malformed_internal_error (event : Option Event) (now : Nat)
    (h : directiveNamespace event = none ∨ directiveName event = none) :
    IndexJs.handler event now =
      .immediate (.fail (IndexJs.getErrorResponse ERROR_TYPES.internalError
        ("Invalid event: " ++ jsStringifyEvent event) now)) ∧
    (IndexJs.handler event now).request? = none ∧
    Part000.handler event now =
      .immediate (.fail (Part000.getErrorReply ERROR_TYPES.internalError
        [.s "Invalid event", Part000.eventArg event] now)) ∧
    (Part000.handler event now).request? = none := by
  have hf := isEventValid_eq_false_of_missing event h
  have h1 : IndexJs.handler event now =
      .immediate (.fail (IndexJs.getErrorResponse ERROR_TYPES.internalError
        ("Invalid event: " ++ jsStringifyEvent event) now)) := by
    unfold IndexJs.handler
    rw [hf]
    rfl
  have h2 : Part000.handler event now =
      .immediate (.fail (Part000.getErrorReply ERROR_TYPES.internalError
        [.s "Invalid event", Part000.eventArg event] now)) := by
    unfold Part000.handler
    rw [hf]
    rfl
  exact ⟨h1, by rw [h1]; rfl, h2, by rw [h2]; rfl⟩

/-- A concrete envelope whose header has a name but no namespace. -/
def malformedEvent : Option Event :=
  some ⟨some ⟨some ⟨none, some "Discover"⟩, none, none⟩⟩

/-- C3 witness: the malformed envelope above gets the InternalError
answer. -/
theorem C3_witness :
    IndexJs.handler malformedEvent 7 =
      .immediate (.fail (IndexJs.getErrorResponse ERROR_TYPES.internalError
        ("Invalid event: " ++ jsStringifyEvent malformedEvent) 7)) := by
  exact (C3_malformed_internal_error malformedEvent 7 (Or.inl rfl)).1

/-- C4 counterexample: under the known namespace Alexa.InputController,
the unsupported directive name Bogus is answered by src/index.js with an
InternalError envelope (its not-yet-implemented stub), not the
InvalidDirective envelope the claim requires - though indeed without a
transport call. -/
theorem C4_counterexample :
    IndexJs.handler (mkControlEvent SUPPORTED_INTERFACES.Alexa_InputController
        "Bogus" "e1" "tok") 0 =
      .immediate (.fail (IndexJs.getErrorResponse ERROR_TYPES.internalError
        "Not yet implemented" 0)) ∧
    ERROR_TYPES.internalError ≠ ERROR_TYPES.invalidDirective := by
  exact ⟨rfl, by decide⟩

/-- C4 amended: a known-namespace directive with a name outside the
namespace's supported set is answered immediately - no transport call -
with an error envelope: InvalidDirective in src/index.js's power and
channel namespaces and in all five control namespaces of the latest
revision; src/index.js's input and step-speaker namespaces answer
InternalError (Not yet implemented) to every name. -/
theorem C4_amended_unsupported_names (name endpointId token : String) (now : Nat) :
    (name ≠ "" → name ≠ "TurnOn" → name ≠ "TurnOff" →
      IndexJs.handler
          (mkControlEvent SUPPORTED_INTERFACES.Alexa_PowerController name endpointId token)
          now =
        .immediate (.fail (IndexJs.getErrorResponse ERROR_TYPES.invalidDirective
          ("Unsupported directive name: " ++ name) now))) ∧
    (name ≠ "" → name ≠ "ChangeChannel" → name ≠ "SkipChannels" →
      IndexJs.handler
          (mkControlEvent SUPPORTED_INTERFACES.Alexa_ChannelController name endpointId token)
          now =
        .immediate (.fail (IndexJs.getErrorResponse ERROR_TYPES.invalidDirective
          ("Unexpected directiveName: " ++ name) now))) ∧
    (name ≠ "" →
      IndexJs.handler
          (mkControlEvent SUPPORTED_INTERFACES.Alexa_InputController name endpointId token)
          now =
        .immediate (.fail (IndexJs.getErrorResponse ERROR_TYPES.internalError
          "Not yet implemented" now))) ∧
    (name ≠ "" →
      IndexJs.handler
          (mkControlEvent SUPPORTED_INTERFACES.Alexa_StepSpeaker name endpointId token)
          now =
        .immediate (.fail (IndexJs.getErrorResponse ERROR_TYPES.internalError
          "Not yet implemented" now))) ∧
    (name ≠ "" → name ≠ "TurnOn" → name ≠ "TurnOff" →
      Part000.handler
          (mkControlEvent SUPPORTED_INTERFACES.Alexa_PowerController name endpointId token)
          now =
        .immediate (.fail (Part000.getInvalidDirectiveReply (some name) now))) ∧
    (name ≠ "" → name ≠ "ChangeChannel" → name ≠ "SkipChannels" →
      Part000.handler
          (mkControlEvent SUPPORTED_INTERFACES.Alexa_ChannelController name endpointId token)
          now =
        .immediate (.fail (Part000.getInvalidDirectiveReply (some name) now))) ∧
    (name ≠ "" → name ≠ "SelectInput" →
      Part000.handler
          (mkControlEvent SUPPORTED_INTERFACES.Alexa_InputController name endpointId token)
          now =
        .immediate (.fail (Part000.getInvalidDirectiveReply (some name) now))) ∧
    (name ≠ "" → name ≠ "SetMute" → name ≠ "AdjustVolume" →
      Part000.handler
          (mkControlEvent SUPPORTED_INTERFACES.Alexa_StepSpeaker name endpointId token)
          now =
        .immediate (.fail (Part000.getInvalidDirectiveReply (some name) now))) ∧
    (name ≠ "" → name ∉ Part000.SUPPORTED_PLAYBACK_DIRECTIVES →
      Part000.handler
          (mkControlEvent SUPPORTED_INTERFACES.Alexa_PlaybackController name endpointId token)
          now =
        .immediate (.fail (Part000.getInvalidDirectiveReply (some name) now))) := by
  refine ⟨?_, ?_, ?_, ?_, ?_, ?_, ?_, ?_, ?_⟩
  · intro h1 h2 h3
    have hvalid : isEventValid (mkControlEvent SUPPORTED_INTERFACES.Alexa_PowerController
        name endpointId token) = true := by
      simp [isEventValid, mkControlEvent, SUPPORTED_INTERFACES.Alexa_PowerController, h1]
    unfold IndexJs.handler
    rw [hvalid]
    show IndexJs.handlePowerControlEvent
      (mkControlEvent SUPPORTED_INTERFACES.Alexa_PowerController name endpointId token) now = _
    simp [IndexJs.handlePowerControlEvent, mkControlEvent, testTurnOnOff, jsUndefStr, h2, h3]
  · intro h1 h2 h3
    have hvalid : isEventValid (mkControlEvent SUPPORTED_INTERFACES.Alexa_ChannelController
        name endpointId token) = true := by
      simp [isEventValid, mkControlEvent, SUPPORTED_INTERFACES.Alexa_ChannelController, h1]
    unfold IndexJs.handler
    rw [hvalid]
    show IndexJs.handleChannelControlEvent
      (mkControlEvent SUPPORTED_INTERFACES.Alexa_ChannelController name endpointId token) now = _
    simp [IndexJs.handleChannelControlEvent, mkControlEvent, jsUndefStr, h2, h3]
  · intro h1
    have hvalid : isEventValid (mkControlEvent SUPPORTED_INTERFACES.Alexa_InputController
        name endpointId token) = true := by
      simp [isEventValid, mkControlEvent, SUPPORTED_INTERFACES.Alexa_InputController, h1]
    unfold IndexJs.handler
    rw [hvalid]
    rfl
  · intro h1
    have hvalid : isEventValid (mkControlEvent SUPPORTED_INTERFACES.Alexa_StepSpeaker
        name endpointId token) = true := by
      simp [isEventValid, mkControlEvent, SUPPORTED_INTERFACES.Alexa_StepSpeaker, h1]
    unfold IndexJs.handler
    rw [hvalid]
    rfl
  · intro h1 h2 h3
    have hvalid : isEventValid (mkControlEvent SUPPORTED_INTERFACES.Alexa_PowerController
        name endpointId token) = true := by
      simp [isEventValid, mkControlEvent, SUPPORTED_INTERFACES.Alexa_PowerController, h1]
    unfold Part000.handler
    rw [hvalid]
    show Part000.handlePowerControlEvent
      (mkControlEvent SUPPORTED_INTERFACES.Alexa_PowerController name endpointId token) now = _
    simp [Part000.handlePowerControlEvent, mkControlEvent, testTurnOnOff, h2, h3]
  · intro h1 h2 h3
    have hvalid : isEventValid (mkControlEvent SUPPORTED_INTERFACES.Alexa_ChannelController
        name endpointId token) = true := by
      simp [isEventValid, mkControlEvent, SUPPORTED_INTERFACES.Alexa_ChannelController, h1]
    unfold Part000.handler
    rw [hvalid]
    show Part000.handleChannelControlEvent
      (mkControlEvent SUPPORTED_INTERFACES.Alexa_ChannelController name endpointId token) now = _
    simp [Part000.handleChannelControlEvent, mkControlEvent, h2, h3]
  · intro h1 h2
    have hvalid : isEventValid (mkControlEvent SUPPORTED_INTERFACES.Alexa_InputController
        name endpointId token) = true := by
      simp [isEventValid, mkControlEvent, SUPPORTED_INTERFACES.Alexa_InputController, h1]
    unfold Part000.handler
    rw [hvalid]
    show Part000.handleInputControlEvent
      (mkControlEvent SUPPORTED_INTERFACES.Alexa_InputController name endpointId token) now = _
    simp [Part000.handleInputControlEvent, Part000.getEndpointId, Part000.getEndpointToken,
      mkControlEvent, h2]
  · intro h1 h2 h3
    have hvalid : isEventValid (mkControlEvent SUPPORTED_INTERFACES.Alexa_StepSpeaker
        name endpointId token) = true := by
      simp [isEventValid, mkControlEvent, SUPPORTED_INTERFACES.Alexa_StepSpeaker, h1]
    unfold Part000.handler
    rw [hvalid]
    show Part000.handleStepSpeakerEvent
      (mkControlEvent SUPPORTED_INTERFACES.Alexa_StepSpeaker name endpointId token) now = _
    simp [Part000.handleStepSpeakerEvent, Part000.getEndpointId, Part000.getEndpointToken,
      mkControlEvent, h2, h3]
  · intro h1 h2
    have hvalid : isEventValid (mkControlEvent SUPPORTED_INTERFACES.Alexa_PlaybackController
        name endpointId token) = true := by
      simp [isEventValid, mkControlEvent, SUPPORTED_INTERFACES.Alexa_PlaybackController, h1]
    unfold Part000.handler
    rw [hvalid]
    show Part000.handlePlaybackControlEvent
      (mkControlEvent SUPPORTED_INTERFACES.Alexa_PlaybackController name endpointId token) now = _
    simp [Part000.handlePlaybackControlEvent, Part000.getEndpointId, Part000.getEndpointToken,
      Part000.isPlaybackDirectiveValid, mkControlEvent, h2]

/-- C4 witness: the amended statement evaluated at the unsupported name
Dim, for the power namespace of src/index.js and of the latest
revision. -/
theorem C4_witness :
    IndexJs.handler
        (mkControlEvent SUPPORTED_INTERFACES.Alexa_PowerController "Dim" "e1" "tok") 3 =
      .immediate (.fail (IndexJs.getErrorResponse ERROR_TYPES.invalidDirective
        ("Unsupported directive name: " ++ "Dim") 3)) ∧
    Part000.handler
        (mkControlEvent SUPPORTED_INTERFACES.Alexa_PowerController "Dim" "e1" "tok") 3 =
      .immediate (.fail (Part000.getInvalidDirectiveReply (some "Dim") 3)) := by
  have h := C4_amended_unsupported_names "Dim" "e1" "tok" 3
  exact ⟨h.1 (by decide) (by decide) (by decide),
    h.2.2.2.2.1 (by decide) (by decide) (by decide)⟩

/-- C5 counterexample: a TurnOn directive for endpoint e1 whose single
PUT completes with status 200 and body with state "off" makes src/index.js
succeed with a reported-state value of "off" - the value echoes the
response body, it does not reflect the commanded "on"; and a 200 response
whose body is not JSON does not make the handler succeed at all - it fails
with an EndpointUnreachable envelope. -/
theorem C5_counterexample :
    (IndexJs.handler
          (mkControlEvent SUPPORTED_INTERFACES.Alexa_PowerController "TurnOn" "e1" "tok")
          0).resume
        (.ok { statusCode := 200, headers := [], responseText := "\x7b\"state\":\"off\"\x7d" }) =
      some (.succeed
        { event := (IndexJs.getResponse "Alexa" "Response" none 0).event,
          context := some
            [{ nspace := SUPPORTED_INTERFACES.Alexa_PowerController,
               name := "powerState",
               value := some (Json.str "off"),
               timeOfSample := none,
               uncertaintyInMilliseconds := none }] }) ∧
    ("off" : String) ≠ "on" ∧
    (IndexJs.handler
          (mkControlEvent SUPPORTED_INTERFACES.Alexa_PowerController "TurnOn" "e1" "tok")
          0).resume
        (.ok { statusCode := 200, headers := [], responseText := "oops" }) =
      some (.fail (IndexJs.getPutErrorResponse jsonParseSyntaxError 0)) := by
  exact ⟨rfl, by decide, rfl⟩

/-- C5 amended: a TurnOn directive for endpoint e1 issues exactly one PUT
to /endpoints/e1/power with body state "on"; a 200 response whose body
parses as JSON yields a success PowerController reported-state event whose
value is the state member of the response body (the commanded "on" only
when the device reports it); a 200 response with an unparsable body fails
with EndpointUnreachable; a non-200 response fails with InternalError, and
a transport error with EndpointUnreachable. -/
theorem C5_amended_power_turn_on (token : String) (now : Nat) :
    (IndexJs.handler
        (mkControlEvent SUPPORTED_INTERFACES.Alexa_PowerController "TurnOn" "e1" token)
        now).request? =
      some { method := "PUT",
             path := "/endpoints/e1/power?access_token=" ++ token,
             body := some "\x7b\"state\":\"on\"\x7d",
             headers := IndexJs.getOptions (some "\x7b\"state\":\"on\"\x7d") } ∧
    (∀ r : HttpResponse, r.statusCode = 200 →
      ∀ power, jsonParse r.responseText = some power →
        (IndexJs.handler
            (mkControlEvent SUPPORTED_INTERFACES.Alexa_PowerController "TurnOn" "e1" token)
            now).resume (.ok r) =
          some (.succeed
            { event := (IndexJs.getResponse "Alexa" "Response" none now).event,
              context := some
                [{ nspace := SUPPORTED_INTERFACES.Alexa_PowerController,
                   name := "powerState",
                   value := jget power "state",
                   timeOfSample := jget power "isoTimestamp",
                   uncertaintyInMilliseconds := jget power "uncertaintyMs" }] })) ∧
    (∀ r : HttpResponse, r.statusCode = 200 → jsonParse r.responseText = none →
      (IndexJs.handler
          (mkControlEvent SUPPORTED_INTERFACES.Alexa_PowerController "TurnOn" "e1" token)
          now).resume (.ok r) =
        some (.fail (IndexJs.getPutErrorResponse jsonParseSyntaxError now))) ∧
    (∀ r : HttpResponse, r.statusCode ≠ 200 →
      (IndexJs.handler
          (mkControlEvent SUPPORTED_INTERFACES.Alexa_PowerController "TurnOn" "e1" token)
          now).resume (.ok r) =
        some (.fail (IndexJs.getHttpStatusErrorResponse r now))) ∧
    (∀ e : JsError,
      (IndexJs.handler
          (mkControlEvent SUPPORTED_INTERFACES.Alexa_PowerController "TurnOn" "e1" token)
          now).resume (.error e) =
        some (.fail (IndexJs.getPutErrorResponse e now))) := by
  refine ⟨rfl, ?_, ?_, ?_, ?_⟩
  · intro r h200 power hparse
    show some (if r.statusCode == 200 then
        match IndexJs.getPowerControlAlexaResponse r now with
        | some resp => Outcome.succeed resp
        | none => Outcome.fail (IndexJs.getPutErrorResponse jsonParseSyntaxError now)
      else Outcome.fail (IndexJs.getHttpStatusErrorResponse r now)) = _
    have hp : IndexJs.getPowerControlAlexaResponse r now =
        some
          { event := (IndexJs.getResponse "Alexa" "Response" none now).event,
            context := some
              [{ nspace := SUPPORTED_INTERFACES.Alexa_PowerController,
                 name := "powerState",
                 value := jget power "state",
                 timeOfSample := jget power "isoTimestamp",
                 uncertaintyInMilliseconds := jget power "uncertaintyMs" }] } := by
      unfold IndexJs.getPowerControlAlexaResponse
      rw [hparse]
    rw [h200, hp]
    rfl
  · intro r h200 hparse
    show some (if r.statusCode == 200 then
        match IndexJs.getPowerControlAlexaResponse r now with
        | some resp => Outcome.succeed resp
        | none => Outcome.fail (IndexJs.getPutErrorResponse jsonParseSyntaxError now)
      else Outcome.fail (IndexJs.getHttpStatusErrorResponse r now)) = _
    have hp : IndexJs.getPowerControlAlexaResponse r now = none := by
      unfold IndexJs.getPowerControlAlexaResponse
      rw [hparse]
    rw [h200, hp]
    rfl
  · intro r hne
    show some (if r.statusCode == 200 then
        match IndexJs.getPowerControlAlexaResponse r now with
        | some resp => Outcome.succeed resp
        | none => Outcome.fail (IndexJs.getPutErrorResponse jsonParseSyntaxError now)
      else Outcome.fail (IndexJs.getHttpStatusErrorResponse r now)) = _
    have hc : (r.statusCode == 200) = false := by
      simp [hne]
    rw [hc]
    rfl
  · intro e
    rfl

/-- C5 witness: the amended statement evaluated on a 200 response whose
body reports state "on". -/
theorem C5_witness :
    (IndexJs.handler
          (mkControlEvent SUPPORTED_INTERFACES.Alexa_PowerController "TurnOn" "e1" "tok")
          4).resume
        (.ok { statusCode := 200, headers := [], responseText := "\x7b\"state\":\"on\"\x7d" }) =
      some (.succeed
        { event := (IndexJs.getResponse "Alexa" "Response" none 4).event,
          context := some
            [{ nspace := SUPPORTED_INTERFACES.Alexa_PowerController,
               name := "powerState",
               value := jget (Json.obj [("state", Json.str "on")]) "state",
               timeOfSample := jget (Json.obj [("state", Json.str "on")]) "isoTimestamp",
               uncertaintyInMilliseconds :=
                 jget (Json.obj [("state", Json.str "on")]) "uncertaintyMs" }] }) := by
  exact (C5_amended_power_turn_on "tok" 4).2.1
    { statusCode := 200, headers := [], responseText := "\x7b\"state\":\"on\"\x7d" } rfl
    (Json.obj [("state", Json.str "on")]) rfl

/-- C6 counterexample: the messageId is the interpolation of the clock
millisecond, so two different envelopes generated at the same clock value
carry the same messageId - uniqueness does not hold as stated. -/
theorem C6_counterexample :
    (IndexJs.getResponse "Alexa" "Response" none 1700000000000).event.header.messageId =
      (IndexJs.getResponse "Alexa" "ErrorResponse" none 1700000000000).event.header.messageId ∧
    IndexJs.getResponse "Alexa" "Response" none 1700000000000 ≠
      IndexJs.getResponse "Alexa" "ErrorResponse" none 1700000000000 := by
  refine ⟨rfl, ?_⟩
  intro h
  have hn := congrArg (fun r => r.event.header.name) h
  simp [IndexJs.getResponse] at hn

/-- C6 amended: every outbound envelope carries as messageId the decimal
rendering of the clock at generation - always non-empty, distinct for
envelopes generated at distinct clock milliseconds, but shared by
envelopes generated within the same millisecond - and the fixed
payloadVersion of its revision: "3" for the versioned shape, "2" for the
legacy shape. -/
theorem C6_amended_message_id (nspace name lname lnspace : String)
    (p : Option ResponsePayload) (lp : Option Json) (t t1 t2 : Nat) (h : t1 ≠ t2) :
    (IndexJs.getResponse nspace name p t).event.header.messageId = jsNumberToString t ∧
    jsNumberToString t ≠ "" ∧
    (IndexJs.getResponse nspace name p t).event.header.payloadVersion = "3" ∧
    (Part000.getReply nspace name p t).event.header.messageId = jsNumberToString t ∧
    (Part000.getReply nspace name p t).event.header.payloadVersion = "3" ∧
    (Part001Legacy.getResponse lname lnspace lp t).header.messageId = jsNumberToString t ∧
    (Part001Legacy.getResponse lname lnspace lp t).header.payloadVersion = "2" ∧
    (IndexJs.getResponse nspace name p t1).event.header.messageId ≠
      (IndexJs.getResponse nspace name p t2).event.header.messageId := by
  refine ⟨rfl, jsNumberToString_ne_empty t, rfl, rfl, rfl, rfl, rfl, ?_⟩
  intro hc
  exact h (jsNumberToString_injective hc)

/-- C6 witness: distinct clock values give distinct messageIds, and the
legacy builder stamps payloadVersion "2". -/
theorem C6_witness :
    (IndexJs.getResponse "Alexa" "Response" none 41).event.header.messageId ≠
      (IndexJs.getResponse "Alexa" "Response" none 42).event.header.messageId ∧
    (Part001Legacy.getResponse "DiscoverAppliancesResponse"
        "Alexa.ConnectedHome.Discovery" none 41).header.payloadVersion = "2" := by
  have h := C6_amended_message_id "Alexa" "Response" "DiscoverAppliancesResponse"
    "Alexa.ConnectedHome.Discovery" none none 41 41 42 (by decide)
  exact ⟨h.2.2.2.2.2.2.2, h.2.2.2.2.2.2.1⟩

/-- C7 counterexample: src/index.js's dispatcher has no case for
Alexa.PlaybackController, so a Play directive under that namespace lands
in the unknown-namespace branch and is answered with InternalError
Unsupported namespace - it is not routed to any playback handler. -/
theorem C7_counterexample :
    IndexJs.handler
        (mkControlEvent SUPPORTED_INTERFACES.Alexa_PlaybackController "Play" "e1" "tok") 0 =
      .immediate (.fail (IndexJs.getErrorResponse ERROR_TYPES.internalError
        ("Unsupported namespace: " ++ SUPPORTED_INTERFACES.Alexa_PlaybackController) 0)) :=
  rfl

/-- C7 amended: the versioned revision of src/code.js and the latest
revision route Alexa.PlaybackController to the playback handler, which for
each of the eight supported names issues the playback transport call; in
src/index.js the namespace falls into the unknown-namespace error
branch. -/
theorem C7_amended_playback_routing (name endpointId token : String) (now : Nat)
    (h : name ∈ Part000.SUPPORTED_PLAYBACK_DIRECTIVES) :
    CodeJsV3.routeOf SUPPORTED_INTERFACES.Alexa_PlaybackController = .playback ∧
    Part000.routeOf SUPPORTED_INTERFACES.Alexa_PlaybackController = .playback ∧
    IndexJs.routeOf SUPPORTED_INTERFACES.Alexa_PlaybackController = .unsupportedNamespace ∧
    (Part000.handler
        (mkControlEvent SUPPORTED_INTERFACES.Alexa_PlaybackController name endpointId token)
        now).request? =
      some { method := "POST",
             path := "/endpoints/" ++ jsReplaceFirst endpointId '#' '.' ++
               "/playback?accessToken=" ++ token,
             body := some (stringifyObjWithUndef [("directive", some (Json.str name))]),
             headers := Part000.getOptions
               (some (stringifyObjWithUndef [("directive", some (Json.str name))])) } := by
  refine ⟨rfl, rfl, rfl, ?_⟩
  fin_cases h <;> rfl

/-- C7 witness: the Play directive is routed by the latest revision to the
playback call. -/
theorem C7_witness :
    (Part000.handler
        (mkControlEvent SUPPORTED_INTERFACES.Alexa_PlaybackController "Play" "e1" "tok")
        2).request? =
      some { method := "POST",
             path := "/endpoints/e1/playback?accessToken=tok",
             body := some (stringifyObjWithUndef [("directive", some (Json.str "Play"))]),
             headers := Part000.getOptions
               (some (stringifyObjWithUndef [("directive", some (Json.str "Play"))])) } := by
  exact (C7_amended_playback_routing "Play" "e1" "tok" 2 (by decide)).2.2.2

/-- C8 counterexample: the claim says every revision's shim rejects on a
non-200 status; src/index.js's shim resolves a 404 response (rejecting
only on socket error) while the src/code.js versioned shim rejects it, so
the non-200 treatment is not one consistent choice. -/
theorem C8_counterexample :
    httpPromise (.resp { statusCode := 404, headers := [], responseText := "nope" }) =
      .ok { statusCode := 404, headers := [], responseText := "nope" } ∧
    CodeJsV3.httpPromise (.resp { statusCode := 404, headers := [], responseText := "nope" }) =
      .error { message := "HTTP 404", enumerableProps := [] } := by
  constructor
  · rfl
  · rfl

/-- C8 amended: the shim of src/index.js (shared verbatim by both
revisions in part_001) resolves with status, headers and body text for
every completed response whatever its status, rejecting only on socket
error; the src/code.js versioned shim additionally rejects any non-200
status; the latest revision's shim rejects non-200 statuses and resolves
the JSON-parsed body instead of the raw text (never settling on a 200 body
that is not JSON).  The non-200 treatment thus differs across
revisions. -/
theorem C8_amended_transport_shim (r : HttpResponse) (e : JsError) (j : Json) :
    httpPromise (.resp r) = .ok r ∧
    httpPromise (.err e) = .error e ∧
    (r.statusCode = 200 → CodeJsV3.httpPromise (.resp r) = .ok r) ∧
    (r.statusCode ≠ 200 → CodeJsV3.httpPromise (.resp r) =
      .error { message := "HTTP " ++ jsNumberToString r.statusCode, enumerableProps := [] }) ∧
    CodeJsV3.httpPromise (.err e) = .error e ∧
    (r.statusCode = 200 → jsonParse r.responseText = some j →
      Part000.httpPromise (.resp r) = .resolved j) ∧
    (r.statusCode = 200 → jsonParse r.responseText = none →
      Part000.httpPromise (.resp r) = .stuck) ∧
    (r.statusCode ≠ 200 → Part000.httpPromise (.resp r) =
      .rejected { message := "HTTP " ++ jsNumberToString r.statusCode, enumerableProps := [] }) ∧
    Part000.httpPromise (.err e) = .rejected e := by
  refine ⟨rfl, rfl, ?_, ?_, rfl, ?_, ?_, ?_, rfl⟩
  · intro h
    show (if (r.statusCode == 200) = true then
        Except.ok (HttpResponse.mk r.statusCode r.headers r.responseText)
      else
        Except.error (JsError.mk ("HTTP " ++ jsNumberToString r.statusCode) [])) =
      Except.ok r
    rw [show (r.statusCode == 200) = true by simp [h]]
    rfl
  · intro h; simp [CodeJsV3.httpPromise, h]
  · intro h hp; simp [Part000.httpPromise, h, hp]
  · intro h hp; simp [Part000.httpPromise, h, hp]
  · intro h; simp [Part000.httpPromise, h]

/-- C8 witness: the amended statement evaluated on a 500 response and on a
200 response with an empty JSON array body. -/
theorem C8_witness :
    CodeJsV3.httpPromise (.resp { statusCode := 500, headers := [], responseText := "" }) =
      .error { message := "HTTP 500", enumerableProps := [] } ∧
    Part000.httpPromise (.resp { statusCode := 200, headers := [], responseText := "[]" }) =
      .resolved (Json.arr []) := by
  have h1 := C8_amended_transport_shim
    { statusCode := 500, headers := [], responseText := "" }
    { message := "x", enumerableProps := [] } Json.null
  have h2 := C8_amended_transport_shim
    { statusCode := 200, headers := [], responseText := "[]" }
    { message := "x", enumerableProps := [] } (Json.arr [])
  constructor
  · exact h1.2.2.2.1 (by decide)
  · exact h2.2.2.2.2.2.1 rfl rfl

/-- C9: a control handler whose transport call rejects does fail with an
EndpointUnreachable envelope, but the message embeds
JSON.stringify(error), and the message property of a JS Error is not
enumerable: the serialization keeps only extra enumerable properties (for
a Node socket error, fields such as code), so the underlying error's
message text never reaches the envelope - contrary to the documented
intent of passing it through for diagnostics. -/
theorem C9_code_bug_eval :
    (IndexJs.handler
          (mkControlEvent SUPPORTED_INTERFACES.Alexa_PowerController "TurnOn" "e1" "tok")
          0).resume
        (.error { message := "socket hang up",
                  enumerableProps := [("code", Json.str "ECONNRESET")] }) =
      some (.fail (IndexJs.getErrorResponse ERROR_TYPES.endpointUnreachable
        "Failed PUT request: \x7b\"code\":\"ECONNRESET\"\x7d" 0)) ∧
    containsSubstr "Failed PUT request: \x7b\"code\":\"ECONNRESET\"\x7d" "socket hang up" =
      false ∧
    (Part000.handler
          (mkControlEvent SUPPORTED_INTERFACES.Alexa_PowerController "TurnOn" "e1" "tok")
          0).resume
        (.rejected { message := "socket hang up",
                     enumerableProps := [("code", Json.str "ECONNRESET")] }) =
      some (.fail (Part000.getReply "Alexa" "ErrorResponse"
        (some (.errorInfo ERROR_TYPES.endpointUnreachable
          "\x7b\"code\":\"ECONNRESET\"\x7d")) 0)) := by
  exact ⟨rfl, by decide, rfl⟩

/-- C10: the latest revision's discovery reply publishes each device id
with its first "." rewritten to "#" as the outbound endpointId, and
getEndpointId rewrites the first "#" of an inbound endpointId back to ".";
for a device id containing no "#" and at most one ".", decoding the
published endpointId returns the original id. -/
theorem C10_endpoint_id_roundtrip (s nm ds mf nspace dname token : String) (now : Nat)
    (hs : s ≠ "") (hnm : nm ≠ "") (hds : ds ≠ "") (hmf : mf ≠ "")
    (hhash : '#' ∉ s.data) (_hdot : s.data.count '.' ≤ 1) :
    Part000.getDiscoveryReply
        (Json.arr [Json.obj [("id", Json.str s), ("name", Json.str nm),
          ("description", Json.str ds), ("manufacturer", Json.str mf),
          ("type", Json.str "roku")]]) now =
      some (Part000.getReply SUPPORTED_INTERFACES.Alexa_Discovery "Discover.Response"
        (some (.discovery
          [{ endpointId := some (Json.str (jsReplaceFirst s '.' '#')),
             manufacturerName := some (Json.str mf),
             friendlyName := some (Json.str nm),
             description := some (Json.str ds),
             displayCategories := [],
             capabilities := Part000.getEndpointCapabilities
               (Json.obj [("id", Json.str s), ("name", Json.str nm),
                 ("description", Json.str ds), ("manufacturer", Json.str mf),
                 ("type", Json.str "roku")]) }])) now) ∧
    Part000.getEndpointId
        (mkControlEvent nspace dname (jsReplaceFirst s '.' '#') token) = some s := by
  constructor
  · have hsupp : Part000.isEndpointSupported
        (Json.obj [("id", Json.str s), ("name", Json.str nm),
          ("description", Json.str ds), ("manufacturer", Json.str mf),
          ("type", Json.str "roku")]) = true := by
      simp [Part000.isEndpointSupported, Part000.supportedTypesHasOwn, jget,
        jget.lookupField, jTruthy, jTruthyOpt, jsToString, hs, hnm, hds, hmf]
    have hfilter : List.filter Part000.isEndpointSupported
        [Json.obj [("id", Json.str s), ("name", Json.str nm),
          ("description", Json.str ds), ("manufacturer", Json.str mf),
          ("type", Json.str "roku")]] =
        [Json.obj [("id", Json.str s), ("name", Json.str nm),
          ("description", Json.str ds), ("manufacturer", Json.str mf),
          ("type", Json.str "roku")]] := by
      simp [hsupp]
    unfold Part000.getDiscoveryReply
    show (Part000.mapEndpoints (List.filter Part000.isEndpointSupported
        [Json.obj [("id", Json.str s), ("name", Json.str nm),
          ("description", Json.str ds), ("manufacturer", Json.str mf),
          ("type", Json.str "roku")]])).map _ = _
    rw [hfilter]
    rfl
  · show some (jsReplaceFirst (jsReplaceFirst s '.' '#') '#' '.') = some s
    rw [jsReplaceFirst_roundtrip s hhash]

/-- C10 witness: the id dev.1 of a roku device is published as dev#1 and
decodes back to dev.1. -/
theorem C10_witness :
    Part000.getEndpointId
        (mkControlEvent "Alexa.PowerController" "TurnOn"
          (jsReplaceFirst "dev.1" '.' '#') "tok") = some "dev.1" := by
  exact (C10_endpoint_id_roundtrip "dev.1" "Lamp" "A lamp" "Acme"
    "Alexa.PowerController" "TurnOn" "tok" 0
    (by decide) (by decide) (by decide) (by decide) (by decide) (by decide)).2

end Razberry
